import Mathlib

/-!
# VkRenderState: state tracking and command emission of the Vulkan backend

A shallow embedding of `src/rendering/vulkan/renderer/vk_renderstate.cpp`.

Modelling conventions

* `int` values are `Int`; signed arithmetic is exact (signed overflow is undefined
  in the source language and is not modelled).
* `uint32_t` values are `Nat`; every store into a `uint32_t` is reduced modulo `2^32`.
* `float` values are carried as IEEE-754 single precision bit patterns (`F32`).  The two
  comparisons with zero the source performs are decoded from the bit pattern; the float
  multiplications (colour normalisation, normal matrix) are functions of the environment.
* Pointers are handles (`Nat`), `0` being `nullptr`.  A member access through a null
  pointer makes the operation return `none`.
* The command buffer is the list of commands recorded so far (`drawCommands`);
  `mCommandBuffer` tells whether the render state currently holds the pointer to it.
* Writes into the mapped uniform buffers are recorded as (byte offset, block) pairs.
* Constants, sizes and collaborators declared in headers outside this file are fields
  of `Env`.
* `ClearScreen` is left out: it goes through the viewpoint buffer and a colour setter of the
  base class, neither of which is part of this file.
-/

namespace WIGZDoom

/-! ## Scalars -/

/-- Bit pattern of a single precision float. -/
abbrev F32 := Nat

/-- The comparison `x == 0` on floats: both signed zeros compare equal to zero. -/
def f32IsZero (x : F32) : Bool := x % 2147483648 == 0

/-- NaN test: exponent bits all set and a non-zero mantissa. -/
def f32IsNaN (x : F32) : Bool := decide (2139095040 < x % 2147483648)

/-- The comparison `x >= 0.f` on floats. -/
def f32GeZero (x : F32) : Bool :=
  !f32IsNaN x && (decide (x % 4294967296 < 2147483648) || f32IsZero x)

/-- Conversion of an `int` to `uint32_t`. -/
def toU32 (i : Int) : Nat := (i % 4294967296).toNat

/-- Reduction of an unsigned sum to 32 bits. -/
def wrapU32 (n : Nat) : Nat := n % 4294967296

/-- The `FVector4` of four floats. -/
structure FVector4 where
  X : F32
  Y : F32
  Z : F32
  W : F32
  deriving DecidableEq, Repr

/-- The braces `{ 0.0f, 0.0f, 0.0f, 0.0f }`. -/
def FVector4.zero : FVector4 := ⟨0, 0, 0, 0⟩

/-- A 4x4 matrix as its sixteen floats; comparison is `memcmp` on them. -/
structure VSMatrix where
  mMatrix : List F32
  deriving DecidableEq, Repr

/-- The `PalEntry` colour as its 32-bit word `d` (a, r, g, b from the top byte down). -/
abbrev PalEntry := Nat

def PalEntry.r (c : PalEntry) : Int := ((c / 65536 % 256 : Nat) : Int)
def PalEntry.g (c : PalEntry) : Int := ((c / 256 % 256 : Nat) : Int)
def PalEntry.b (c : PalEntry) : Int := ((c % 256 : Nat) : Int)
def PalEntry.a (c : PalEntry) : Int := ((c / 16777216 % 256 : Nat) : Int)

/-! ## Vulkan value types -/

structure VkOffset2D where
  x : Int
  y : Int
  deriving DecidableEq, Repr

structure VkExtent2D where
  width : Nat
  height : Nat
  deriving DecidableEq, Repr

structure VkRect2D where
  offset : VkOffset2D
  extent : VkExtent2D
  deriving DecidableEq, Repr

/-- The viewport rectangle; `x`, `y`, `width`, `height` hold the integers the source
converts to `float`. -/
structure VkViewport where
  x : Int
  y : Int
  width : Int
  height : Int
  minDepth : F32
  maxDepth : F32
  deriving DecidableEq, Repr

/-- The fields `ApplyRenderPass` assigns to the pass key; keys compare field by field. -/
structure VkRenderPassKey where
  DrawType : Int
  VertexFormat : Int
  RenderStyle : Nat
  DepthTest : Bool
  DepthWrite : Bool
  DepthFunc : Int
  DepthClamp : Bool
  DepthBias : Bool
  StencilTest : Bool
  StencilPassOp : Int
  ColorMask : Int
  CullMode : Int
  Samples : Int
  SpecialEffect : Int
  EffectState : Int
  AlphaTest : Bool
  deriving DecidableEq, Repr

/-- The value `{}` that `EndRenderPass` stores into `mRenderPassKey`. -/
def VkRenderPassKey.empty : VkRenderPassKey :=
  ⟨0, 0, 0, false, false, 0, false, false, false, 0, 0, 0, 0, 0, 0, false⟩

/-- The streamed per-draw uniform block. -/
structure StreamData where
  uObjectColor : FVector4
  uObjectColor2 : FVector4
  uDynLightColor : FVector4
  uAddColor : FVector4
  uFogColor : FVector4
  uDesaturationFactor : F32
  uInterpolationFactor : F32
  timer : F32
  useVertexData : Int
  uVertexColor : FVector4
  uVertexNormal : FVector4
  uGlowTopPlane : FVector4
  uGlowTopColor : FVector4
  uGlowBottomPlane : FVector4
  uGlowBottomColor : FVector4
  uGradientTopPlane : FVector4
  uGradientBottomPlane : FVector4
  uSplitTopPlane : FVector4
  uSplitBottomPlane : FVector4
  deriving DecidableEq, Repr

/-- The push constant block. -/
structure PushConstants where
  uTextureMode : Int
  uAlphaThreshold : F32
  uClipSplit : F32 × F32
  uLightLevel : F32
  uFogDensity : F32
  uLightFactor : F32
  uLightDist : F32
  uFogEnabled : Int
  uLightIndex : Int
  uDataIndex : Int
  deriving DecidableEq, Repr

/-- The matrix uniform block. -/
structure MatricesUBO where
  ModelMatrix : VSMatrix
  NormalModelMatrix : VSMatrix
  TextureMatrix : VSMatrix
  deriving DecidableEq, Repr

/-- The depth bias triple `mBias`. -/
structure FDepthBiasState where
  mFactor : F32
  mUnits : F32
  mChanged : Bool
  deriving DecidableEq, Repr

/-- The material reference `mMaterial`. -/
structure FMaterialState where
  mMaterial : Nat
  mClampMode : Int
  mTranslation : Int
  mOverrideShader : Int
  mChanged : Bool
  deriving DecidableEq, Repr

/-- The union `VkClearValue`: a colour or a depth/stencil pair. -/
inductive VkClearValue where
  | color (float32 : List F32)
  | depthStencil (depth : F32) (stencil : Nat)
  deriving DecidableEq, Repr

/-- One attachment handed to `clearAttachments`: the three aspect bits of `aspectMask`
and the clear value. -/
structure VkClearAttachment where
  aspectColor : Bool
  aspectDepth : Bool
  aspectStencil : Bool
  clearValue : VkClearValue
  deriving DecidableEq, Repr

structure VkClearRect where
  rect : VkRect2D
  baseArrayLayer : Nat
  layerCount : Nat
  deriving DecidableEq, Repr

/-- The commands the render state records into the command buffer.  Arguments that are
constant in every call of this file (bind point, pipeline layout, binding 0, index type)
are left out. -/
inductive Cmd where
  | endRenderPass
  | beginRenderPass (key : VkRenderPassKey)
  | setScissor (scissor : VkRect2D)
  | setViewport (viewport : VkViewport)
  | setStencilReference (reference : Int)
  | setDepthBias (constantFactor clamp slopeFactor : F32)
  | pushConstants (data : PushConstants)
  | bindVertexBuffers (buffer : Nat)
  | bindIndexBuffer (buffer : Nat)
  | bindDescriptorSet (setIndex : Nat) (descriptorSet : Nat) (dynamicOffsets : List Nat)
  | draw (vertexCount instanceCount firstVertex firstInstance : Int)
  | drawIndexed (indexCount instanceCount firstIndex vertexOffset firstInstance : Int)
  | clearAttachments (attachments : List VkClearAttachment) (rects : List VkClearRect)
  deriving DecidableEq, Repr

/-! ## Environment -/

/-- Everything the file reads from other translation units: enumerators and macros,
`sizeof` values, the frame buffer, the pass manager, the screen, materials and cvars.
The collaborators (`VertexFormat` of a vertex buffer, `UseVertexData` of a vertex format,
`GetShaderIndex`, `isHardwareCanvas` and `GetLayer` of a material, `GetDescriptorSet` of a
texture, `BindUBO` of the light buffer) are functions of their arguments that leave the
render state alone; `scaleNorm v` is the float `v * (1.0f / 255.0f)` and
`computeNormalMatrix` the float computation of the same name. -/
structure Env where
  MAX_STREAM_DATA : Int
  sizeofStreamData : Nat
  sizeofStreamUBO : Nat
  MatricesUBO_AlignedSize : Nat
  MatricesUBO_Size : Nat
  EFF_NONE : Int
  SHADER_NoTexture : Int
  TM_NORMAL : Int
  TM_OPAQUE : Int
  DT_Triangles : Int
  DT_TriangleFan : Int
  DT_TriangleStrip : Int
  CT_Depth : Nat
  CT_Stencil : Nat
  CT_Color : Nat
  SF_ColorMaskOff : Nat
  SF_DepthMaskOff : Nat
  VIEWPOINT_BINDINGPOINT : Int
  LIGHTBUF_BINDINGPOINT : Int
  SCREENWIDTH : Int
  SCREENHEIGHT : Int
  buffersWidth : Int
  buffersHeight : Int
  stencilValue : Int
  mSceneClearColor : List F32
  gl_fogmode : Int
  GetSamples : Int
  DynamicSet : Nat
  FanToTrisIndexBuffer : Nat
  VertexFormat : Nat → Int
  UseVertexData : Int → Int
  GetShaderIndex : Nat → Int
  isHardwareCanvas : Nat → Bool
  GetLayer : Nat → Int → Nat
  GetDescriptorSet : Nat → FMaterialState → Nat
  BindUBO : Int → Int
  scaleNorm : Int → F32
  computeNormalMatrix : VSMatrix → VSMatrix

/-! ## The render state -/

/-- The members of `VkRenderState` (own and inherited) that the file touches, the
recorded command stream and the two mapped uniform buffers. -/
structure State where
  mNeedApply : Bool
  mCommandBuffer : Bool
  drawCommands : List Cmd
  mRenderPassKey : VkRenderPassKey
  mDepthClamp : Bool
  mDepthWrite : Bool
  mDepthTest : Bool
  mDepthFunc : Int
  mStencilTest : Bool
  mStencilRef : Int
  mStencilRefChanged : Bool
  mStencilOp : Int
  mColorMask : Int
  mCullMode : Int
  mBias : FDepthBiasState
  mScissorX : Int
  mScissorY : Int
  mScissorWidth : Int
  mScissorHeight : Int
  mScissorChanged : Bool
  mViewportX : Int
  mViewportY : Int
  mViewportWidth : Int
  mViewportHeight : Int
  mViewportDepthMin : F32
  mViewportDepthMax : F32
  mViewportChanged : Bool
  mVertexBuffer : Nat
  mIndexBuffer : Nat
  mLastVertexBuffer : Nat
  mLastIndexBuffer : Nat
  mRenderStyle : Nat
  mSpecialEffect : Int
  mMaterial : FMaterialState
  mTextureEnabled : Bool
  mAlphaThreshold : F32
  mTextureMode : Int
  mFogEnabled : Int
  mFogColor : PalEntry
  mAddColor : PalEntry
  mObjectColor : PalEntry
  mObjectColor2 : PalEntry
  mDesaturation : Int
  mDynColor : FVector4
  mInterpolationFactor : F32
  mColor : FVector4
  mNormal : FVector4
  mLightParms : F32 × F32 × F32 × F32
  mClipSplit : F32 × F32
  mLightIndex : Int
  mGlowEnabled : Bool
  mGlowTopPlane : FVector4
  mGlowTop : FVector4
  mGlowBottomPlane : FVector4
  mGlowBottom : FVector4
  mLastGlowEnabled : Bool
  mGradientEnabled : Bool
  mGradientTopPlane : FVector4
  mGradientBottomPlane : FVector4
  mLastGradientEnabled : Bool
  mSplitEnabled : Bool
  mSplitTopPlane : FVector4
  mSplitBottomPlane : FVector4
  mLastSplitEnabled : Bool
  mTextureMatrixEnabled : Bool
  mModelMatrixEnabled : Bool
  mLastTextureMatrixEnabled : Bool
  mLastModelMatrixEnabled : Bool
  mTextureMatrix : VSMatrix
  mModelMatrix : VSMatrix
  mIdentityMatrix : VSMatrix
  mMatrices : MatricesUBO
  mStreamData : StreamData
  mPushConstants : PushConstants
  mDataIndex : Int
  mViewpointOffset : Nat
  mLightBufferOffset : Nat
  mMatricesOffset : Nat
  mStreamDataOffset : Nat
  mLastViewpointOffset : Nat
  mLastLightBufferOffset : Nat
  mLastMatricesOffset : Nat
  mLastStreamDataOffset : Nat
  StreamUBO_Memory : List (Int × StreamData)
  MatricesUBO_Memory : List (Nat × MatricesUBO)

/-- The call `mCommandBuffer->cmd(...)`: records the command, or fails on a null
command buffer. -/
def emit (c : Cmd) (s : State) : Option State :=
  if s.mCommandBuffer then some { s with drawCommands := s.drawCommands ++ [c] } else none

/-! ## Setters -/

def SetDepthClamp (on_ : Bool) (s : State) : Bool × State :=
  (s.mDepthClamp, { s with mDepthClamp := on_, mNeedApply := true })

def SetDepthMask (on_ : Bool) (s : State) : State :=
  { s with mDepthWrite := on_, mNeedApply := true }

def SetDepthFunc (func : Int) (s : State) : State :=
  { s with mDepthFunc := func, mNeedApply := true }

def SetDepthRange (min max : F32) (s : State) : State :=
  { s with mViewportDepthMin := min, mViewportDepthMax := max,
           mViewportChanged := true, mNeedApply := true }

/-- The value of a `bool` converted to `int`.  The shifts in `SetColorMask` act on such
0/1 values, so the bitwise or of the shifted values is their sum. -/
def boolToInt (b : Bool) : Int := if b then 1 else 0

def SetColorMask (r g b a : Bool) (s : State) : State :=
  { s with mColorMask := boolToInt a * 8 + boolToInt b * 4 + boolToInt g * 2 + boolToInt r,
           mNeedApply := true }

def EnableDrawBufferAttachments (_on : Bool) (s : State) : State := s

/-- The test `flags & bit` on the two's complement pattern of `flags`. -/
def flagSet (flags : Int) (bit : Nat) : Bool := toU32 flags &&& bit != 0

def SetStencil (env : Env) (offs op flags : Int) (s : State) : State :=
  let s := { s with mStencilRef := env.stencilValue + offs, mStencilRefChanged := true,
                    mStencilOp := op }
  let s :=
    if flags ≠ -1 then
      let cmon := !flagSet flags env.SF_ColorMaskOff
      let s := SetColorMask cmon cmon cmon cmon s
      { s with mDepthWrite := !flagSet flags env.SF_DepthMaskOff }
    else s
  { s with mNeedApply := true }

def SetCulling (mode : Int) (s : State) : State :=
  { s with mCullMode := mode, mNeedApply := true }

def EnableClipDistance (_num : Int) (_state : Bool) (s : State) : State := s

def EnableStencil (on_ : Bool) (s : State) : State :=
  { s with mStencilTest := on_, mNeedApply := true }

def SetScissor (x y w h : Int) (s : State) : State :=
  { s with mScissorX := x, mScissorY := y, mScissorWidth := w, mScissorHeight := h,
           mScissorChanged := true, mNeedApply := true }

def SetViewport (x y w h : Int) (s : State) : State :=
  { s with mViewportX := x, mViewportY := y, mViewportWidth := w, mViewportHeight := h,
           mViewportChanged := true, mNeedApply := true }

def EnableDepthTest (on_ : Bool) (s : State) : State :=
  { s with mDepthTest := on_, mNeedApply := true }

def EnableMultisampling (_on : Bool) (s : State) : State := s

def EnableLineSmooth (_on : Bool) (s : State) : State := s

def Bind (env : Env) (bindingpoint : Int) (offset : Nat) (s : State) : State :=
  if bindingpoint = env.VIEWPOINT_BINDINGPOINT then
    { s with mViewpointOffset := offset, mNeedApply := true }
  else if bindingpoint = env.LIGHTBUF_BINDINGPOINT then
    { s with mLightBufferOffset := offset, mNeedApply := true }
  else s

def EndRenderPass (s : State) : State :=
  if s.mCommandBuffer then
    { s with drawCommands := s.drawCommands ++ [Cmd.endRenderPass],
             mCommandBuffer := false,
             mRenderPassKey := VkRenderPassKey.empty,
             mLastViewpointOffset := 4294967295,
             mLastLightBufferOffset := 4294967295,
             mLastVertexBuffer := 0,
             mLastIndexBuffer := 0,
             mLastGlowEnabled := true,
             mLastGradientEnabled := true,
             mLastSplitEnabled := true,
             mLastModelMatrixEnabled := true,
             mLastTextureMatrixEnabled := true }
  else s

def EndFrame (s : State) : State :=
  { s with mMatricesOffset := 0, mStreamDataOffset := 0, mDataIndex := -1 }

/-! ## The apply pipeline -/

/-- The pass key `ApplyRenderPass` builds from the snapshot. -/
def passKey (env : Env) (dt : Int) (s : State) : VkRenderPassKey :=
  let common : VkRenderPassKey :=
    { DrawType := dt
      VertexFormat := env.VertexFormat s.mVertexBuffer
      RenderStyle := s.mRenderStyle
      DepthTest := s.mDepthTest
      DepthWrite := s.mDepthTest && s.mDepthWrite
      DepthFunc := s.mDepthFunc
      DepthClamp := s.mDepthClamp
      DepthBias := !(f32IsZero s.mBias.mFactor && f32IsZero s.mBias.mUnits)
      StencilTest := s.mStencilTest
      StencilPassOp := s.mStencilOp
      ColorMask := s.mColorMask
      CullMode := s.mCullMode
      Samples := env.GetSamples
      SpecialEffect := 0
      EffectState := 0
      AlphaTest := false }
  if s.mSpecialEffect > env.EFF_NONE then
    { common with SpecialEffect := s.mSpecialEffect, EffectState := 0, AlphaTest := false }
  else
    let effectState : Int :=
      if s.mMaterial.mOverrideShader ≥ 0 then s.mMaterial.mOverrideShader
      else if s.mMaterial.mMaterial ≠ 0 then env.GetShaderIndex s.mMaterial.mMaterial
      else 0
    { common with
      SpecialEffect := env.EFF_NONE
      EffectState := if s.mTextureEnabled then effectState else env.SHADER_NoTexture
      AlphaTest := f32GeZero s.mAlphaThreshold }

/-- The first step of `Apply`.  Reading the vertex format dereferences `mVertexBuffer`. -/
def ApplyRenderPass (env : Env) (dt : Int) (s : State) : Option State :=
  if s.mVertexBuffer = 0 then none
  else
    let key := passKey env dt s
    let changingRenderPass : Bool := decide (key ≠ s.mRenderPassKey)
    let acquired : Option (State × Bool) :=
      if !s.mCommandBuffer then
        some ({ s with mCommandBuffer := true,
                       mScissorChanged := true,
                       mViewportChanged := true,
                       mStencilRefChanged := true,
                       mBias := { s.mBias with mChanged := true } }, true)
      else if changingRenderPass then
        (emit Cmd.endRenderPass s).map fun t => (t, changingRenderPass)
      else some (s, changingRenderPass)
    acquired.bind fun p =>
      if p.2 then
        (emit (Cmd.beginRenderPass key) p.1).map fun t => { t with mRenderPassKey := key }
      else some p.1

/-- The device rectangle `ApplyScissor` computes. -/
def scissorRect (env : Env) (s : State) : VkRect2D :=
  if s.mScissorWidth ≥ 0 then
    let r : VkRect2D :=
      { offset := { x := s.mScissorX, y := env.buffersHeight - s.mScissorY - s.mViewportHeight }
        extent := { width := toU32 s.mScissorWidth, height := toU32 s.mScissorHeight } }
    let r : VkRect2D :=
      if r.offset.x < 0 then
        { offset := { x := 0, y := r.offset.y }
          extent := { width := r.extent.width
                      height := toU32 ((r.extent.height : Int) + r.offset.x) } }
      else r
    let r : VkRect2D :=
      if r.offset.y < 0 then
        { offset := { x := r.offset.x, y := 0 }
          extent := { width := r.extent.width
                      height := toU32 ((r.extent.height : Int) + r.offset.y) } }
      else r
    r
  else
    { offset := { x := 0, y := 0 }
      extent := { width := toU32 env.buffersWidth, height := toU32 env.buffersHeight } }

def ApplyScissor (env : Env) (s : State) : Option State :=
  if s.mScissorChanged then
    (emit (Cmd.setScissor (scissorRect env s)) s).map fun t => { t with mScissorChanged := false }
  else some s

/-- The viewport `ApplyViewport` computes. -/
def viewportRect (env : Env) (s : State) : VkViewport :=
  if s.mViewportWidth ≥ 0 then
    { x := s.mViewportX
      y := env.buffersHeight - s.mViewportY - s.mViewportHeight
      width := s.mViewportWidth
      height := s.mViewportHeight
      minDepth := s.mViewportDepthMin
      maxDepth := s.mViewportDepthMax }
  else
    { x := 0
      y := 0
      width := env.buffersWidth
      height := env.buffersHeight
      minDepth := s.mViewportDepthMin
      maxDepth := s.mViewportDepthMax }

def ApplyViewport (env : Env) (s : State) : Option State :=
  if s.mViewportChanged then
    (emit (Cmd.setViewport (viewportRect env s)) s).map fun t =>
      { t with mViewportChanged := false }
  else some s

def ApplyStencilRef (s : State) : Option State :=
  if s.mStencilRefChanged then
    (emit (Cmd.setStencilReference s.mStencilRef) s).map fun t =>
      { t with mStencilRefChanged := false }
  else some s

def ApplyDepthBias (s : State) : Option State :=
  if s.mBias.mChanged then
    (emit (Cmd.setDepthBias s.mBias.mUnits 0 s.mBias.mFactor) s).map fun t =>
      { t with mBias := { t.mBias with mChanged := false } }
  else some s

/-- The four channels of a colour, each multiplied by `normScale`. -/
def normColor (env : Env) (c : PalEntry) : FVector4 :=
  ⟨env.scaleNorm c.r, env.scaleNorm c.g, env.scaleNorm c.b, env.scaleNorm c.a⟩

/-- The glow block of `ApplyStreamData`. -/
def applyGlow (s : State) : State :=
  if s.mGlowEnabled then
    { s with mStreamData := { s.mStreamData with uGlowTopPlane := s.mGlowTopPlane
                                                 uGlowTopColor := s.mGlowTop
                                                 uGlowBottomPlane := s.mGlowBottomPlane
                                                 uGlowBottomColor := s.mGlowBottom }
             mLastGlowEnabled := true }
  else if s.mLastGlowEnabled then
    { s with mStreamData := { s.mStreamData with uGlowTopColor := FVector4.zero
                                                 uGlowBottomColor := FVector4.zero }
             mLastGlowEnabled := false }
  else s

/-- The gradient block of `ApplyStreamData`. -/
def applyGradient (env : Env) (s : State) : State :=
  if s.mGradientEnabled then
    { s with mStreamData := { s.mStreamData with uObjectColor2 := normColor env s.mObjectColor2
                                                 uGradientTopPlane := s.mGradientTopPlane
                                                 uGradientBottomPlane := s.mGradientBottomPlane }
             mLastGradientEnabled := true }
  else if s.mLastGradientEnabled then
    { s with mStreamData := { s.mStreamData with uObjectColor2 := FVector4.zero }
             mLastGradientEnabled := false }
  else s

/-- The split block of `ApplyStreamData`. -/
def applySplit (s : State) : State :=
  if s.mSplitEnabled then
    { s with mStreamData := { s.mStreamData with uSplitTopPlane := s.mSplitTopPlane
                                                 uSplitBottomPlane := s.mSplitBottomPlane }
             mLastSplitEnabled := true }
  else if s.mLastSplitEnabled then
    { s with mStreamData := { s.mStreamData with uSplitTopPlane := FVector4.zero
                                                 uSplitBottomPlane := FVector4.zero }
             mLastSplitEnabled := false }
  else s

/-- The ring advance and the `memcpy` that end `ApplyStreamData`. -/
def advanceStream (env : Env) (s : State) : State :=
  let s := { s with mDataIndex := s.mDataIndex + 1 }
  let s :=
    if s.mDataIndex = env.MAX_STREAM_DATA then
      { s with mDataIndex := 0
               mStreamDataOffset := wrapU32 (s.mStreamDataOffset + env.sizeofStreamUBO) }
    else s
  { s with StreamUBO_Memory := s.StreamUBO_Memory ++
      [((s.mStreamDataOffset : Int) + (env.sizeofStreamData : Int) * s.mDataIndex,
        s.mStreamData)] }

/-- The unconditional assignments `ApplyStreamData` makes to `mStreamData`. -/
def fillStreamData (env : Env) (s : State) : StreamData :=
  { s.mStreamData with
    uDesaturationFactor := env.scaleNorm s.mDesaturation
    uFogColor := normColor env s.mFogColor
    uAddColor := normColor env s.mAddColor
    uObjectColor := normColor env s.mObjectColor
    uDynLightColor := s.mDynColor
    uInterpolationFactor := s.mInterpolationFactor
    useVertexData := env.UseVertexData (env.VertexFormat s.mVertexBuffer)
    uVertexColor := s.mColor
    uVertexNormal := s.mNormal
    timer := 0 }

/-- The sixth step of `Apply`.  Looking up `UseVertexData` dereferences `mVertexBuffer`. -/
def ApplyStreamData (env : Env) (s : State) : Option State :=
  if s.mVertexBuffer = 0 then none
  else
    let s := { s with mStreamData := fillStreamData env s }
    some (advanceStream env (applySplit (applyGradient env (applyGlow s))))

/-- The fog mode `ApplyPushConstants` derives. -/
def fogset (env : Env) (s : State) : Int :=
  if s.mFogEnabled ≠ 0 then
    if s.mFogEnabled = 2 then -3
    else if s.mFogColor % 16777216 = 0 then env.gl_fogmode
    else -env.gl_fogmode
  else 0

/-- The assignments `ApplyPushConstants` makes to `mPushConstants`. -/
def fillPushConstants (env : Env) (s : State) : PushConstants :=
  let tempTM : Int :=
    if s.mMaterial.mMaterial ≠ 0 ∧ env.isHardwareCanvas s.mMaterial.mMaterial = true
    then env.TM_OPAQUE else env.TM_NORMAL
  { s.mPushConstants with
    uFogEnabled := fogset env s
    uTextureMode :=
      if s.mTextureMode = env.TM_NORMAL ∧ tempTM = env.TM_OPAQUE then env.TM_OPAQUE
      else s.mTextureMode
    uLightDist := s.mLightParms.1
    uLightFactor := s.mLightParms.2.1
    uFogDensity := s.mLightParms.2.2.1
    uLightLevel := s.mLightParms.2.2.2
    uAlphaThreshold := s.mAlphaThreshold
    uClipSplit := s.mClipSplit
    uLightIndex := env.BindUBO s.mLightIndex
    uDataIndex := s.mDataIndex }

def ApplyPushConstants (env : Env) (s : State) : Option State :=
  let s := { s with mPushConstants := fillPushConstants env s }
  emit (Cmd.pushConstants s.mPushConstants) s

/-- The helper `BufferedSet`: the new values of `modified` and `dst`. -/
def BufferedSet {T : Type} [DecidableEq T] (modified : Bool) (dst src : T) : Bool × T :=
  if dst = src then (modified, dst) else (true, src)

/-- The seventh step of `Apply`.  `MatricesUBO_AlignedSize` stands for
`UniformBufferAlignedSize<MatricesUBO>()`, and `<< 1` is the doubling.  The sum in the
guard is taken exactly; the store into `mMatricesOffset` wraps at 32 bits. -/
def ApplyMatrices (env : Env) (s : State) : State :=
  let modified : Bool := decide (s.mMatricesOffset = 0)
  let tex := BufferedSet modified s.mMatrices.TextureMatrix
    (if s.mTextureMatrixEnabled then s.mTextureMatrix else s.mIdentityMatrix)
  let s := { s with mMatrices := { s.mMatrices with TextureMatrix := tex.2 } }
  let modified := tex.1
  let r : Bool × State :=
    if s.mModelMatrixEnabled then
      let m := BufferedSet modified s.mMatrices.ModelMatrix s.mModelMatrix
      let s := { s with mMatrices := { s.mMatrices with ModelMatrix := m.2 } }
      if m.1 then
        (m.1, { s with mMatrices := { s.mMatrices with
                  NormalModelMatrix := env.computeNormalMatrix s.mModelMatrix } })
      else (m.1, s)
    else
      let m := BufferedSet modified s.mMatrices.ModelMatrix s.mIdentityMatrix
      let n := BufferedSet m.1 s.mMatrices.NormalModelMatrix s.mIdentityMatrix
      (n.1, { s with mMatrices := { s.mMatrices with ModelMatrix := m.2
                                                     NormalModelMatrix := n.2 } })
  let s := r.2
  if r.1 then
    if s.mMatricesOffset + env.MatricesUBO_AlignedSize * 2 < env.MatricesUBO_Size then
      let s := { s with
        mMatricesOffset := wrapU32 (s.mMatricesOffset + env.MatricesUBO_AlignedSize) }
      { s with MatricesUBO_Memory := s.MatricesUBO_Memory ++ [(s.mMatricesOffset, s.mMatrices)] }
    else s
  else s

def ApplyVertexBuffers (s : State) : Option State :=
  let bound : Option State :=
    if s.mVertexBuffer ≠ s.mLastVertexBuffer ∧ s.mVertexBuffer ≠ 0 then
      (emit (Cmd.bindVertexBuffers s.mVertexBuffer) s).map fun t =>
        { t with mLastVertexBuffer := t.mVertexBuffer }
    else some s
  bound.bind fun s =>
    if s.mIndexBuffer ≠ s.mLastIndexBuffer ∧ s.mIndexBuffer ≠ 0 then
      (emit (Cmd.bindIndexBuffer s.mIndexBuffer) s).map fun t =>
        { t with mLastIndexBuffer := t.mIndexBuffer }
    else some s

def ApplyMaterial (env : Env) (s : State) : Option State :=
  if s.mMaterial.mChanged = true ∧ s.mMaterial.mMaterial ≠ 0 then
    let base := env.GetLayer s.mMaterial.mMaterial s.mMaterial.mTranslation
    let bound : Option State :=
      if base ≠ 0 then
        emit (Cmd.bindDescriptorSet 1 (env.GetDescriptorSet base s.mMaterial) []) s
      else some s
    bound.map fun t => { t with mMaterial := { t.mMaterial with mChanged := false } }
  else some s

def ApplyDynamicSet (env : Env) (s : State) : Option State :=
  if s.mViewpointOffset ≠ s.mLastViewpointOffset ∨
     s.mLightBufferOffset ≠ s.mLastLightBufferOffset ∨
     s.mMatricesOffset ≠ s.mLastMatricesOffset ∨
     s.mStreamDataOffset ≠ s.mLastStreamDataOffset then
    (emit (Cmd.bindDescriptorSet 0 env.DynamicSet
        [s.mViewpointOffset, s.mLightBufferOffset, s.mMatricesOffset, s.mStreamDataOffset])
      s).map fun t =>
      { t with mLastViewpointOffset := t.mViewpointOffset
               mLastLightBufferOffset := t.mLightBufferOffset
               mLastMatricesOffset := t.mMatricesOffset
               mLastStreamDataOffset := t.mStreamDataOffset }
  else some s

/-- The assignment `mNeedApply = false` that ends `Apply`. -/
def clearNeedApply (s : State) : State := { s with mNeedApply := false }

def Apply (env : Env) (dt : Int) (s : State) : Option State :=
  (ApplyRenderPass env dt s).bind fun s =>
  (ApplyScissor env s).bind fun s =>
  (ApplyViewport env s).bind fun s =>
  (ApplyStencilRef s).bind fun s =>
  (ApplyDepthBias s).bind fun s =>
  (ApplyStreamData env s).bind fun s =>
  (ApplyPushConstants env (ApplyMatrices env s)).bind fun s =>
  (ApplyVertexBuffers s).bind fun s =>
  (ApplyDynamicSet env s).bind fun s =>
  (ApplyMaterial env s).bind fun s =>
  some (clearNeedApply s)

/-! ## Draw calls -/

def Draw (env : Env) (dt index count : Int) (apply : Bool) (s : State) : Option State :=
  (if apply || s.mNeedApply then Apply env dt s else some s).bind fun s =>
  emit (Cmd.draw count 1 index 0) s

def DrawIndexed (env : Env) (dt index count : Int) (apply : Bool) (s : State) : Option State :=
  (if apply || s.mNeedApply then Apply env dt s else some s).bind fun s =>
  emit (Cmd.drawIndexed count 1 index 0 0) s

/-! ## Clear -/

/-- The array `rects` after the loop of `Clear`: both passes store the converted scissor
rectangle into `rects[0]`; `rects[1]` only gets its `layerCount`. -/
def clearRects (env : Env) (s : State) : List VkClearRect :=
  let r0 : VkRect2D :=
    if s.mScissorWidth ≥ 0 then
      let r : VkRect2D :=
        { offset := { x := s.mScissorX
                      y := env.buffersHeight - s.mScissorY - s.mViewportHeight }
          extent := { width := toU32 s.mScissorWidth, height := toU32 s.mScissorHeight } }
      let r : VkRect2D :=
        if r.offset.x < 0 then
          { offset := { x := 0, y := r.offset.y }
            extent := { width := r.extent.width
                        height := toU32 ((r.extent.height : Int) + r.offset.x) } }
        else r
      let r : VkRect2D :=
        if r.offset.y < 0 then
          { offset := { x := r.offset.x, y := 0 }
            extent := { width := r.extent.width
                        height := toU32 ((r.extent.height : Int) + r.offset.y) } }
        else r
      r
    else
      { offset := { x := 0, y := 0 }
        extent := { width := toU32 env.SCREENWIDTH, height := toU32 env.SCREENHEIGHT } }
  [{ rect := r0, baseArrayLayer := 0, layerCount := 1 },
   { rect := { offset := { x := 0, y := 0 }, extent := { width := 0, height := 0 } }
     baseArrayLayer := 0
     layerCount := 1 }]

/-- The array `attachments` of `Clear`: entry 0 is the colour attachment, entry 1 the
depth/stencil attachment. -/
def clearAttachmentsOf (env : Env) (targets : Nat) : List VkClearAttachment :=
  let hasDepth : Bool := targets &&& env.CT_Depth != 0
  let hasStencil : Bool := targets &&& env.CT_Stencil != 0
  let hasColor : Bool := targets &&& env.CT_Color != 0
  [{ aspectColor := hasColor
     aspectDepth := false
     aspectStencil := false
     clearValue :=
       if hasColor then VkClearValue.color (env.mSceneClearColor.take 4)
       else VkClearValue.color [0, 0, 0, 0] },
   { aspectColor := false
     aspectDepth := hasDepth
     aspectStencil := hasStencil
     clearValue := VkClearValue.depthStencil (if hasDepth then 1065353216 else 0) 0 }]

/-- The depth flags `Clear` forces before its `Apply`. -/
def forceDepth (env : Env) (targets : Nat) (s : State) : State :=
  if targets &&& (env.CT_Depth ||| env.CT_Stencil) ≠ 0 then
    { s with mDepthTest := true, mDepthWrite := true }
  else s

/-- The depth flags `Clear` puts back after its `Apply`. -/
def restoreDepth (lastDepthTest lastDepthWrite : Bool) (s : State) : State :=
  { s with mDepthTest := lastDepthTest, mDepthWrite := lastDepthWrite }

def Clear (env : Env) (targets : Nat) (s : State) : Option State :=
  let lastDepthTest := s.mDepthTest
  let lastDepthWrite := s.mDepthWrite
  (Apply env env.DT_TriangleStrip (forceDepth env targets s)).bind fun s =>
  let s := restoreDepth lastDepthTest lastDepthWrite s
  let attachments := clearAttachmentsOf env targets
  let rects := clearRects env s
  if targets &&& env.CT_Color ≠ 0 ∧ targets &&& env.CT_Stencil ≠ 0 ∧
      targets &&& env.CT_Depth ≠ 0 then
    emit (Cmd.clearAttachments attachments rects) s
  else if targets &&& (env.CT_Stencil ||| env.CT_Depth) ≠ 0 then
    emit (Cmd.clearAttachments (attachments.drop 1) (rects.drop 1)) s
  else if targets &&& env.CT_Color ≠ 0 then
    emit (Cmd.clearAttachments (attachments.take 1) (rects.take 1)) s
  else some s

/-- The override `VkRenderStateMolten::Draw`. -/
def VkRenderStateMolten.Draw (env : Env) (dt index count : Int) (apply : Bool) (s : State) :
    Option State :=
  if dt = env.DT_TriangleFan then
    let oldIndexBuffer := s.mIndexBuffer
    let s := { s with mIndexBuffer := env.FanToTrisIndexBuffer }
    (if apply || s.mNeedApply then Apply env env.DT_Triangles s
      else ApplyVertexBuffers s).bind fun s =>
    (emit (Cmd.drawIndexed ((count - 2) * 3) 1 0 index 0) s).map fun s =>
    { s with mIndexBuffer := oldIndexBuffer }
  else
    (if apply || s.mNeedApply then Apply env dt s else some s).bind fun s =>
    emit (Cmd.draw count 1 index 0) s

/-! ## Commands and values of the single steps

The commands each step of `Apply` records and the values it stores, as functions of the
state the step starts from.  They are used to state what the steps do in closed form. -/

/-- Whether a command is a draw call. -/
def Cmd.isDraw : Cmd → Bool
  | Cmd.draw _ _ _ _ => true
  | Cmd.drawIndexed _ _ _ _ _ => true
  | _ => false

def renderPassCmds (env : Env) (dt : Int) (s : State) : List Cmd :=
  if s.mCommandBuffer then
    if passKey env dt s ≠ s.mRenderPassKey then
      [Cmd.endRenderPass, Cmd.beginRenderPass (passKey env dt s)]
    else []
  else [Cmd.beginRenderPass (passKey env dt s)]

def scissorCmds (env : Env) (s : State) : List Cmd :=
  if s.mScissorChanged then [Cmd.setScissor (scissorRect env s)] else []

def viewportCmds (env : Env) (s : State) : List Cmd :=
  if s.mViewportChanged then [Cmd.setViewport (viewportRect env s)] else []

def stencilRefCmds (s : State) : List Cmd :=
  if s.mStencilRefChanged then [Cmd.setStencilReference s.mStencilRef] else []

def depthBiasCmds (s : State) : List Cmd :=
  if s.mBias.mChanged then [Cmd.setDepthBias s.mBias.mUnits 0 s.mBias.mFactor] else []

def vertexBufferCmds (s : State) : List Cmd :=
  (if s.mVertexBuffer ≠ s.mLastVertexBuffer ∧ s.mVertexBuffer ≠ 0
    then [Cmd.bindVertexBuffers s.mVertexBuffer] else []) ++
  (if s.mIndexBuffer ≠ s.mLastIndexBuffer ∧ s.mIndexBuffer ≠ 0
    then [Cmd.bindIndexBuffer s.mIndexBuffer] else [])

def dynamicSetCmds (env : Env) (s : State) : List Cmd :=
  if s.mViewpointOffset ≠ s.mLastViewpointOffset ∨
     s.mLightBufferOffset ≠ s.mLastLightBufferOffset ∨
     s.mMatricesOffset ≠ s.mLastMatricesOffset ∨
     s.mStreamDataOffset ≠ s.mLastStreamDataOffset then
    [Cmd.bindDescriptorSet 0 env.DynamicSet
      [s.mViewpointOffset, s.mLightBufferOffset, s.mMatricesOffset, s.mStreamDataOffset]]
  else []

def materialCmds (env : Env) (s : State) : List Cmd :=
  if s.mMaterial.mChanged = true ∧ s.mMaterial.mMaterial ≠ 0 ∧
      env.GetLayer s.mMaterial.mMaterial s.mMaterial.mTranslation ≠ 0 then
    [Cmd.bindDescriptorSet 1
      (env.GetDescriptorSet (env.GetLayer s.mMaterial.mMaterial s.mMaterial.mTranslation)
        s.mMaterial) []]
  else []

def streamDataAfter (env : Env) (s : State) : StreamData :=
  (applySplit (applyGradient env (applyGlow
    { s with mStreamData := fillStreamData env s }))).mStreamData

def nextDataIndex (env : Env) (s : State) : Int :=
  if s.mDataIndex + 1 = env.MAX_STREAM_DATA then 0 else s.mDataIndex + 1

def nextStreamDataOffset (env : Env) (s : State) : Nat :=
  if s.mDataIndex + 1 = env.MAX_STREAM_DATA
  then wrapU32 (s.mStreamDataOffset + env.sizeofStreamUBO) else s.mStreamDataOffset

def matricesAfter (env : Env) (s : State) : MatricesUBO := (ApplyMatrices env s).mMatrices
def matricesOffsetAfter (env : Env) (s : State) : Nat := (ApplyMatrices env s).mMatricesOffset
def matricesMemoryAfter (env : Env) (s : State) : List (Nat × MatricesUBO) :=
  (ApplyMatrices env s).MatricesUBO_Memory

/-- The composition of `n` consecutive calls of `f`. -/
def iterateStep (f : State → Option State) : Nat → State → Option State
  | 0, s => some s
  | n + 1, s => (iterateStep f n s).bind f

/-- What one pass over the stream ring does to the ring fields. -/
def RingStep (env : Env) (f : State → Option State) : Prop :=
  ∀ s : State, s.mVertexBuffer ≠ 0 → ∃ t, f s = some t ∧
    t.mVertexBuffer = s.mVertexBuffer ∧
    t.mDataIndex = nextDataIndex env s ∧
    t.mStreamDataOffset = nextStreamDataOffset env s ∧
    t.StreamUBO_Memory = s.StreamUBO_Memory ++
      [((t.mStreamDataOffset : Int) + (env.sizeofStreamData : Int) * t.mDataIndex,
        t.mStreamData)]

/-- The composition of `n` consecutive `ApplyStreamData` calls. -/
def applyStreamDataN (env : Env) (n : Nat) (s : State) : Option State :=
  iterateStep (ApplyStreamData env) n s

/-- The composition of `n` consecutive `Apply(dt)` calls. -/
def applyN (env : Env) (dt : Int) (n : Nat) (s : State) : Option State :=
  iterateStep (Apply env dt) n s

/-- The state `Apply(dt)` leaves behind: the pass key is current, no dirty flag is set
and every binding shadow equals what it shadows. -/
def Settled (env : Env) (dt : Int) (t : State) : Prop :=
  t.mVertexBuffer ≠ 0 ∧ t.mCommandBuffer = true ∧ t.mRenderPassKey = passKey env dt t ∧
  t.mScissorChanged = false ∧ t.mViewportChanged = false ∧ t.mStencilRefChanged = false ∧
  t.mBias.mChanged = false ∧ t.mLastVertexBuffer = t.mVertexBuffer ∧
  (t.mIndexBuffer = 0 ∨ t.mLastIndexBuffer = t.mIndexBuffer) ∧
  t.mLastViewpointOffset = t.mViewpointOffset ∧
  t.mLastLightBufferOffset = t.mLightBufferOffset ∧
  t.mLastMatricesOffset = t.mMatricesOffset ∧
  t.mLastStreamDataOffset = t.mStreamDataOffset ∧
  (t.mMaterial.mChanged = false ∨ t.mMaterial.mMaterial = 0)

/-- The matrices cached in `mMatrices` are the pending ones. -/
def MatricesCached (s : State) : Prop :=
  s.mMatrices.TextureMatrix =
    (if s.mTextureMatrixEnabled then s.mTextureMatrix else s.mIdentityMatrix) ∧
  s.mMatrices.ModelMatrix =
    (if s.mModelMatrixEnabled then s.mModelMatrix else s.mIdentityMatrix) ∧
  (s.mModelMatrixEnabled = false → s.mMatrices.NormalModelMatrix = s.mIdentityMatrix)

instance (env : Env) (dt : Int) (t : State) : Decidable (Settled env dt t) := by
  unfold Settled; infer_instance

instance (s : State) : Decidable (MatricesCached s) := by
  unfold MatricesCached; infer_instance

/-- The commands a second `Apply(dt)` adds to the command buffer when it follows a first
one directly. -/
def secondApplyCommands (env : Env) (dt : Int) (s : State) : Option (List Cmd) :=
  (Apply env dt s).bind fun s1 =>
    (Apply env dt s1).map fun s2 => s2.drawCommands.drop s1.drawCommands.length

/-- Two snapshots agree on depth test/write/func/clamp/bias, stencil test/op/ref, colour
mask, cull mode, material and special effect. -/
def agreeOnClaimedKeyFields (a b : State) : Prop :=
  a.mDepthTest = b.mDepthTest ∧ a.mDepthWrite = b.mDepthWrite ∧ a.mDepthFunc = b.mDepthFunc ∧
  a.mDepthClamp = b.mDepthClamp ∧ a.mBias = b.mBias ∧
  a.mStencilTest = b.mStencilTest ∧ a.mStencilOp = b.mStencilOp ∧
  a.mStencilRef = b.mStencilRef ∧
  a.mColorMask = b.mColorMask ∧ a.mCullMode = b.mCullMode ∧
  a.mMaterial = b.mMaterial ∧ a.mSpecialEffect = b.mSpecialEffect

instance (a b : State) : Decidable (agreeOnClaimedKeyFields a b) := by
  unfold agreeOnClaimedKeyFields; infer_instance

/-- The streamed fields of the glow feature. -/
def glowFields (d : StreamData) : FVector4 × FVector4 × FVector4 × FVector4 :=
  (d.uGlowTopPlane, d.uGlowTopColor, d.uGlowBottomPlane, d.uGlowBottomColor)

/-- The streamed fields of the gradient feature. -/
def gradientFields (d : StreamData) : FVector4 × FVector4 × FVector4 :=
  (d.uObjectColor2, d.uGradientTopPlane, d.uGradientBottomPlane)

/-- The streamed fields of the split feature. -/
def splitFields (d : StreamData) : FVector4 × FVector4 :=
  (d.uSplitTopPlane, d.uSplitBottomPlane)

/-! ## Concrete inputs -/

/-- The identity matrix, sixteen floats with 1.0 on the diagonal. -/
def identityMatrix : VSMatrix :=
  ⟨[1065353216, 0, 0, 0, 0, 1065353216, 0, 0, 0, 0, 1065353216, 0, 0, 0, 0, 1065353216]⟩

/-- A concrete environment: a ring of 256 blocks of 256 bytes and a 1920x1080 target.
Its `scaleNorm` is exact at the two ends of the byte range (0 and 255), the only channel
values the sample state uses. -/
def sampleEnv : Env :=
  { MAX_STREAM_DATA := 256
    sizeofStreamData := 256
    sizeofStreamUBO := 65536
    MatricesUBO_AlignedSize := 256
    MatricesUBO_Size := 12800000
    EFF_NONE := -1
    SHADER_NoTexture := 4
    TM_NORMAL := 0
    TM_OPAQUE := 2
    DT_Triangles := 2
    DT_TriangleFan := 3
    DT_TriangleStrip := 4
    CT_Depth := 1
    CT_Stencil := 2
    CT_Color := 4
    SF_ColorMaskOff := 1
    SF_DepthMaskOff := 2
    VIEWPOINT_BINDINGPOINT := 3
    LIGHTBUF_BINDINGPOINT := 1
    SCREENWIDTH := 1920
    SCREENHEIGHT := 1080
    buffersWidth := 1920
    buffersHeight := 1080
    stencilValue := 0
    mSceneClearColor := [0, 0, 0, 1065353216]
    gl_fogmode := 1
    GetSamples := 1
    DynamicSet := 7
    FanToTrisIndexBuffer := 9
    VertexFormat := fun _ => 0
    UseVertexData := fun _ => 1
    GetShaderIndex := fun _ => 0
    isHardwareCanvas := fun _ => false
    GetLayer := fun m _ => m
    GetDescriptorSet := fun b _ => b
    BindUBO := fun i => i
    scaleNorm := fun v => if v = 255 then 1065353216 else 0
    computeNormalMatrix := fun m => m }

/-- A concrete render state: a vertex buffer (handle 1) and an index buffer (handle 2) are
set, a command buffer is active, nothing has been recorded or bound yet. -/
def sampleState : State :=
  { mNeedApply := false
    mCommandBuffer := true
    drawCommands := []
    mRenderPassKey := VkRenderPassKey.empty
    mDepthClamp := false
    mDepthWrite := false
    mDepthTest := false
    mDepthFunc := 0
    mStencilTest := false
    mStencilRef := 0
    mStencilRefChanged := false
    mStencilOp := 0
    mColorMask := 15
    mCullMode := 0
    mBias := ⟨0, 0, false⟩
    mScissorX := 0
    mScissorY := 0
    mScissorWidth := -1
    mScissorHeight := 0
    mScissorChanged := false
    mViewportX := 0
    mViewportY := 0
    mViewportWidth := 1920
    mViewportHeight := 1080
    mViewportDepthMin := 0
    mViewportDepthMax := 1065353216
    mViewportChanged := false
    mVertexBuffer := 1
    mIndexBuffer := 2
    mLastVertexBuffer := 0
    mLastIndexBuffer := 0
    mRenderStyle := 0
    mSpecialEffect := -1
    mMaterial := ⟨0, 0, 0, -1, false⟩
    mTextureEnabled := true
    mAlphaThreshold := 1056964608
    mTextureMode := 0
    mFogEnabled := 0
    mFogColor := 0
    mAddColor := 0
    mObjectColor := 4294967295
    mObjectColor2 := 0
    mDesaturation := 0
    mDynColor := FVector4.zero
    mInterpolationFactor := 0
    mColor := ⟨1065353216, 1065353216, 1065353216, 1065353216⟩
    mNormal := FVector4.zero
    mLightParms := (0, 0, 0, 0)
    mClipSplit := (0, 0)
    mLightIndex := -1
    mGlowEnabled := false
    mGlowTopPlane := FVector4.zero
    mGlowTop := FVector4.zero
    mGlowBottomPlane := FVector4.zero
    mGlowBottom := FVector4.zero
    mLastGlowEnabled := false
    mGradientEnabled := false
    mGradientTopPlane := FVector4.zero
    mGradientBottomPlane := FVector4.zero
    mLastGradientEnabled := false
    mSplitEnabled := false
    mSplitTopPlane := FVector4.zero
    mSplitBottomPlane := FVector4.zero
    mLastSplitEnabled := false
    mTextureMatrixEnabled := false
    mModelMatrixEnabled := false
    mLastTextureMatrixEnabled := false
    mLastModelMatrixEnabled := false
    mTextureMatrix := identityMatrix
    mModelMatrix := identityMatrix
    mIdentityMatrix := identityMatrix
    mMatrices := ⟨⟨List.replicate 16 0⟩, ⟨List.replicate 16 0⟩, ⟨List.replicate 16 0⟩⟩
    mStreamData := ⟨FVector4.zero, FVector4.zero, FVector4.zero, FVector4.zero, FVector4.zero,
      0, 0, 0, 0, FVector4.zero, FVector4.zero, FVector4.zero, FVector4.zero, FVector4.zero,
      FVector4.zero, FVector4.zero, FVector4.zero, FVector4.zero, FVector4.zero⟩
    mPushConstants := ⟨0, 0, (0, 0), 0, 0, 0, 0, 0, 0, 0⟩
    mDataIndex := -1
    mViewpointOffset := 0
    mLightBufferOffset := 0
    mMatricesOffset := 0
    mStreamDataOffset := 0
    mLastViewpointOffset := 4294967295
    mLastLightBufferOffset := 4294967295
    mLastMatricesOffset := 0
    mLastStreamDataOffset := 0
    StreamUBO_Memory := []
    MatricesUBO_Memory := [] }

/-! ## The steps in closed form -/

theorem ApplyRenderPass_eq (env : Env) (dt : Int) (s : State) (h : s.mVertexBuffer ≠ 0) :
    ApplyRenderPass env dt s = some { s with
      mCommandBuffer := true
      mScissorChanged := s.mScissorChanged || !s.mCommandBuffer
      mViewportChanged := s.mViewportChanged || !s.mCommandBuffer
      mStencilRefChanged := s.mStencilRefChanged || !s.mCommandBuffer
      mBias := { s.mBias with mChanged := s.mBias.mChanged || !s.mCommandBuffer }
      mRenderPassKey := passKey env dt s
      drawCommands := s.drawCommands ++ renderPassCmds env dt s } := by
  unfold ApplyRenderPass renderPassCmds emit
  by_cases hc : s.mCommandBuffer = true
  · by_cases hk : passKey env dt s = s.mRenderPassKey
    · cases s; simp_all
    · cases s; simp_all
  · cases s; simp_all

theorem ApplyScissor_eq (env : Env) (s : State) (h : s.mCommandBuffer = true) :
    ApplyScissor env s = some { s with
      mScissorChanged := false
      drawCommands := s.drawCommands ++ scissorCmds env s } := by
  unfold ApplyScissor scissorCmds emit
  by_cases hc : s.mScissorChanged = true
  · cases s; simp_all
  · cases s; simp_all

theorem ApplyViewport_eq (env : Env) (s : State) (h : s.mCommandBuffer = true) :
    ApplyViewport env s = some { s with
      mViewportChanged := false
      drawCommands := s.drawCommands ++ viewportCmds env s } := by
  unfold ApplyViewport viewportCmds emit
  by_cases hc : s.mViewportChanged = true
  · cases s; simp_all
  · cases s; simp_all

theorem ApplyStencilRef_eq (s : State) (h : s.mCommandBuffer = true) :
    ApplyStencilRef s = some { s with
      mStencilRefChanged := false
      drawCommands := s.drawCommands ++ stencilRefCmds s } := by
  unfold ApplyStencilRef stencilRefCmds emit
  by_cases hc : s.mStencilRefChanged = true
  · cases s; simp_all
  · cases s; simp_all

theorem ApplyDepthBias_eq (s : State) (h : s.mCommandBuffer = true) :
    ApplyDepthBias s = some { s with
      mBias := { s.mBias with mChanged := false }
      drawCommands := s.drawCommands ++ depthBiasCmds s } := by
  unfold ApplyDepthBias depthBiasCmds emit
  by_cases hc : s.mBias.mChanged = true
  · cases s; simp_all
  · have hb : ({ s.mBias with mChanged := false } : FDepthBiasState) = s.mBias := by
      rcases hm : s.mBias with ⟨f, u, c⟩
      rw [hm] at hc
      simp_all
    simp only [hc, hb]
    cases s; simp_all

theorem applyGlow_eq (s : State) :
    applyGlow s = { s with
      mStreamData := (applyGlow s).mStreamData
      mLastGlowEnabled := s.mGlowEnabled } := by
  unfold applyGlow
  split_ifs with h1 h2
  · simp [h1]
  · simp at h1; simp [h1]
  · cases s; simp_all

theorem applyGradient_eq (env : Env) (s : State) :
    applyGradient env s = { s with
      mStreamData := (applyGradient env s).mStreamData
      mLastGradientEnabled := s.mGradientEnabled } := by
  unfold applyGradient
  split_ifs with h1 h2
  · simp [h1]
  · simp at h1; simp [h1]
  · cases s; simp_all

theorem applySplit_eq (s : State) :
    applySplit s = { s with
      mStreamData := (applySplit s).mStreamData
      mLastSplitEnabled := s.mSplitEnabled } := by
  unfold applySplit
  split_ifs with h1 h2
  · simp [h1]
  · simp at h1; simp [h1]
  · cases s; simp_all

theorem advanceStream_eq (env : Env) (s : State) :
    advanceStream env s = { s with
      mDataIndex := nextDataIndex env s
      mStreamDataOffset := nextStreamDataOffset env s
      StreamUBO_Memory := s.StreamUBO_Memory ++
        [((nextStreamDataOffset env s : Int) +
            (env.sizeofStreamData : Int) * nextDataIndex env s, s.mStreamData)] } := by
  unfold advanceStream nextDataIndex nextStreamDataOffset
  by_cases hi : s.mDataIndex + 1 = env.MAX_STREAM_DATA
  · simp [hi]
  · simp [hi]

theorem ApplyStreamData_eq (env : Env) (s : State) (h : s.mVertexBuffer ≠ 0) :
    ApplyStreamData env s = some { s with
      mStreamData := streamDataAfter env s
      mLastGlowEnabled := s.mGlowEnabled
      mLastGradientEnabled := s.mGradientEnabled
      mLastSplitEnabled := s.mSplitEnabled
      mDataIndex := nextDataIndex env s
      mStreamDataOffset := nextStreamDataOffset env s
      StreamUBO_Memory := s.StreamUBO_Memory ++
        [((nextStreamDataOffset env s : Int) +
            (env.sizeofStreamData : Int) * nextDataIndex env s, streamDataAfter env s)] } := by
  unfold ApplyStreamData
  rw [if_neg h]
  simp only [streamDataAfter]
  rw [advanceStream_eq, applySplit_eq, applyGradient_eq, applyGlow_eq]
  simp [nextDataIndex, nextStreamDataOffset]

theorem ApplyMatrices_eq (env : Env) (s : State) :
    ApplyMatrices env s = { s with
      mMatrices := matricesAfter env s
      mMatricesOffset := matricesOffsetAfter env s
      MatricesUBO_Memory := matricesMemoryAfter env s } := by
  simp only [matricesAfter, matricesOffsetAfter, matricesMemoryAfter, ApplyMatrices]
  split_ifs <;> rfl

theorem ApplyPushConstants_eq (env : Env) (s : State) (h : s.mCommandBuffer = true) :
    ApplyPushConstants env s = some { s with
      mPushConstants := fillPushConstants env s
      drawCommands := s.drawCommands ++ [Cmd.pushConstants (fillPushConstants env s)] } := by
  simp [ApplyPushConstants, emit, h]

theorem ApplyVertexBuffers_eq (s : State) (h : s.mCommandBuffer = true) :
    ApplyVertexBuffers s = some { s with
      mLastVertexBuffer := if s.mVertexBuffer = 0 then s.mLastVertexBuffer else s.mVertexBuffer
      mLastIndexBuffer := if s.mIndexBuffer = 0 then s.mLastIndexBuffer else s.mIndexBuffer
      drawCommands := s.drawCommands ++ vertexBufferCmds s } := by
  unfold ApplyVertexBuffers vertexBufferCmds emit
  by_cases hv : s.mVertexBuffer = s.mLastVertexBuffer <;>
  by_cases hv0 : s.mVertexBuffer = 0 <;>
  by_cases hi : s.mIndexBuffer = s.mLastIndexBuffer <;>
  by_cases hi0 : s.mIndexBuffer = 0 <;>
  (cases s; simp_all)

theorem ApplyDynamicSet_eq (env : Env) (s : State) (h : s.mCommandBuffer = true) :
    ApplyDynamicSet env s = some { s with
      mLastViewpointOffset := s.mViewpointOffset
      mLastLightBufferOffset := s.mLightBufferOffset
      mLastMatricesOffset := s.mMatricesOffset
      mLastStreamDataOffset := s.mStreamDataOffset
      drawCommands := s.drawCommands ++ dynamicSetCmds env s } := by
  unfold ApplyDynamicSet dynamicSetCmds emit
  split_ifs with hc
  · cases s; simp_all
  · cases s; simp_all

theorem ApplyMaterial_eq (env : Env) (s : State) (h : s.mCommandBuffer = true) :
    ApplyMaterial env s = some { s with
      mMaterial := { s.mMaterial with
        mChanged := s.mMaterial.mChanged && decide (s.mMaterial.mMaterial = 0) }
      drawCommands := s.drawCommands ++ materialCmds env s } := by
  unfold ApplyMaterial materialCmds emit
  rcases hm : s.mMaterial with ⟨m, cl, tr, ov, ch⟩
  by_cases hc : ch = true <;> by_cases hm0 : m = 0 <;>
  by_cases hl : env.GetLayer m tr = 0 <;>
  (cases s; simp_all)

/-! ## The stream ring -/

theorem ApplyStreamData_ringStep (env : Env) : RingStep env (ApplyStreamData env) := by
  intro s h
  exact ⟨_, ApplyStreamData_eq env s h, rfl, rfl, rfl, rfl⟩

theorem Apply_ringStep (env : Env) (dt : Int) : RingStep env (Apply env dt) := by
  intro s h
  cases hA : Apply env dt s with
  | none =>
    simp [Apply, ApplyRenderPass_eq, ApplyScissor_eq, ApplyViewport_eq, ApplyStencilRef_eq,
      ApplyDepthBias_eq, ApplyStreamData_eq, ApplyMatrices_eq, ApplyPushConstants_eq,
      ApplyVertexBuffers_eq, ApplyDynamicSet_eq, ApplyMaterial_eq, h, clearNeedApply] at hA
  | some t =>
    simp [Apply, ApplyRenderPass_eq, ApplyScissor_eq, ApplyViewport_eq, ApplyStencilRef_eq,
      ApplyDepthBias_eq, ApplyStreamData_eq, ApplyMatrices_eq, ApplyPushConstants_eq,
      ApplyVertexBuffers_eq, ApplyDynamicSet_eq, ApplyMaterial_eq, h, clearNeedApply] at hA
    subst hA
    simp [nextDataIndex, nextStreamDataOffset, streamDataAfter]

theorem iterateStep_add (f : State → Option State) (a b : Nat) (s : State) :
    iterateStep f (a + b) s = (iterateStep f a s).bind (iterateStep f b) := by
  induction b with
  | zero => simp [iterateStep]
  | succ b ih =>
    rw [← Nat.add_assoc]
    simp only [iterateStep, ih]
    cases iterateStep f a s <;> simp

/-- As long as the ring index stays below `MAX_STREAM_DATA`, `j` passes advance it by `j`
and leave the backing offset alone. -/
theorem iterateStep_noWrap (env : Env) (f : State → Option State) (hf : RingStep env f)
    (j : Nat) (s : State) (hvb : s.mVertexBuffer ≠ 0)
    (hj : s.mDataIndex + j < env.MAX_STREAM_DATA) :
    ∃ t, iterateStep f j s = some t ∧ t.mVertexBuffer = s.mVertexBuffer ∧
      t.mDataIndex = s.mDataIndex + j ∧ t.mStreamDataOffset = s.mStreamDataOffset ∧
      (1 ≤ j → t.StreamUBO_Memory.getLast? =
        some ((s.mStreamDataOffset : Int) + (env.sizeofStreamData : Int) * (s.mDataIndex + j),
          t.mStreamData)) := by
  induction j with
  | zero => exact ⟨s, rfl, rfl, by simp, rfl, by simp⟩
  | succ j ih =>
    obtain ⟨t, ht, hv, hi, ho, _⟩ := ih (by push_cast at hj; omega)
    obtain ⟨u, hu, huv, hui, huo, hum⟩ := hf t (by rw [hv]; exact hvb)
    have hne : t.mDataIndex + 1 ≠ env.MAX_STREAM_DATA := by
      rw [hi]; push_cast at hj; omega
    have hi2 : u.mDataIndex = s.mDataIndex + (j + 1 : Nat) := by
      rw [hui, nextDataIndex, if_neg hne, hi]; push_cast; ring
    have ho2 : u.mStreamDataOffset = s.mStreamDataOffset := by
      rw [huo, nextStreamDataOffset, if_neg hne, ho]
    refine ⟨u, ?_, ?_, hi2, ho2, ?_⟩
    · simp [iterateStep, ht, hu]
    · rw [huv, hv]
    · intro _
      rw [hum, ho2, hi2]
      simp

/-- The pass taken at ring index `MAX_STREAM_DATA - 1` wraps the ring. -/
theorem ringStep_wrap (env : Env) (f : State → Option State) (hf : RingStep env f)
    (s : State) (hvb : s.mVertexBuffer ≠ 0) (hi : s.mDataIndex + 1 = env.MAX_STREAM_DATA) :
    ∃ t, f s = some t ∧ t.mVertexBuffer = s.mVertexBuffer ∧ t.mDataIndex = 0 ∧
      t.mStreamDataOffset = wrapU32 (s.mStreamDataOffset + env.sizeofStreamUBO) ∧
      t.StreamUBO_Memory.getLast? =
        some (((wrapU32 (s.mStreamDataOffset + env.sizeofStreamUBO) : Nat) : Int),
          t.mStreamData) := by
  obtain ⟨u, hu, huv, hui, huo, hum⟩ := hf s hvb
  have hi2 : u.mDataIndex = 0 := by rw [hui, nextDataIndex, if_pos hi]
  have ho2 : u.mStreamDataOffset = wrapU32 (s.mStreamDataOffset + env.sizeofStreamUBO) := by
    rw [huo, nextStreamDataOffset, if_pos hi]
  refine ⟨u, hu, huv, hi2, ho2, ?_⟩
  rw [hum, ho2, hi2]
  simp


/-- Counted from the frame start, pass number `N * m + 1` writes the first entry of
block `m` of the stream buffer. -/
theorem iterateStep_blocks (env : Env) (f : State → Option State) (hf : RingStep env f)
    (N : Nat) (hN : env.MAX_STREAM_DATA = N) (hpos : 0 < N)
    (s : State) (hvb : s.mVertexBuffer ≠ 0) (m : Nat) :
    ∃ t, iterateStep f (N * m + 1) (EndFrame s) = some t ∧
      t.mVertexBuffer = s.mVertexBuffer ∧ t.mDataIndex = 0 ∧
      t.mStreamDataOffset = wrapU32 (m * env.sizeofStreamUBO) ∧
      t.StreamUBO_Memory.getLast? =
        some (((wrapU32 (m * env.sizeofStreamUBO) : Nat) : Int), t.mStreamData) := by
  induction m with
  | zero =>
    obtain ⟨t, ht, hv, hi, ho, hm⟩ := iterateStep_noWrap env f hf 1 (EndFrame s) hvb
      (by simp only [EndFrame, hN]; push_cast; omega)
    refine ⟨t, by simpa using ht, hv, ?_, ?_, ?_⟩
    · rw [hi]; simp [EndFrame]
    · rw [ho]; simp [EndFrame, wrapU32]
    · rw [hm (le_refl 1)]; simp [EndFrame, wrapU32]
  | succ m ih =>
    obtain ⟨t, ht, hv, hi, ho, _⟩ := ih
    obtain ⟨u, hu, huv, hui, huo, _⟩ := iterateStep_noWrap env f hf (N - 1) t
      (by rw [hv]; exact hvb) (by rw [hi, hN]; omega)
    obtain ⟨w, hw, hwv, hwi, hwo, hwm⟩ := ringStep_wrap env f hf u
      (by rw [huv, hv]; exact hvb) (by rw [hui, hi, hN]; omega)
    have hoff : wrapU32 (u.mStreamDataOffset + env.sizeofStreamUBO) =
        wrapU32 ((m + 1) * env.sizeofStreamUBO) := by
      rw [huo, ho]; simp only [wrapU32]; rw [Nat.add_mul, Nat.one_mul]; omega
    refine ⟨w, ?_, ?_, hwi, ?_, ?_⟩
    · have hcount : N * (m + 1) + 1 = (N * m + 1) + (N - 1) + 1 := by
        rw [Nat.mul_succ]; omega
      rw [hcount, iterateStep_add, iterateStep_add, ht]
      simp [iterateStep, hu, hw]
    · rw [hwv, huv, hv]
    · rw [hwo, hoff]
    · rw [hwm, hoff]

/-! ## The blocks written by `ApplyStreamData` and `ApplyMatrices` -/

theorem streamDataAfter_eq (env : Env) (s : State) :
    streamDataAfter env s = { fillStreamData env s with
      uGlowTopPlane := if s.mGlowEnabled then s.mGlowTopPlane else s.mStreamData.uGlowTopPlane
      uGlowTopColor :=
        if s.mGlowEnabled then s.mGlowTop
        else if s.mLastGlowEnabled then FVector4.zero else s.mStreamData.uGlowTopColor
      uGlowBottomPlane :=
        if s.mGlowEnabled then s.mGlowBottomPlane else s.mStreamData.uGlowBottomPlane
      uGlowBottomColor :=
        if s.mGlowEnabled then s.mGlowBottom
        else if s.mLastGlowEnabled then FVector4.zero else s.mStreamData.uGlowBottomColor
      uObjectColor2 :=
        if s.mGradientEnabled then normColor env s.mObjectColor2
        else if s.mLastGradientEnabled then FVector4.zero else s.mStreamData.uObjectColor2
      uGradientTopPlane :=
        if s.mGradientEnabled then s.mGradientTopPlane else s.mStreamData.uGradientTopPlane
      uGradientBottomPlane :=
        if s.mGradientEnabled then s.mGradientBottomPlane
        else s.mStreamData.uGradientBottomPlane
      uSplitTopPlane :=
        if s.mSplitEnabled then s.mSplitTopPlane
        else if s.mLastSplitEnabled then FVector4.zero else s.mStreamData.uSplitTopPlane
      uSplitBottomPlane :=
        if s.mSplitEnabled then s.mSplitBottomPlane
        else if s.mLastSplitEnabled then FVector4.zero
        else s.mStreamData.uSplitBottomPlane } := by
  cases hg : s.mGlowEnabled <;> cases hlg : s.mLastGlowEnabled <;>
  cases hr : s.mGradientEnabled <;> cases hlr : s.mLastGradientEnabled <;>
  cases hs : s.mSplitEnabled <;> cases hls : s.mLastSplitEnabled <;>
  simp only [streamDataAfter, applySplit, applyGradient, applyGlow, hg, hlg, hr, hlr, hs, hls,
    if_true, if_false, Bool.false_eq_true, fillStreamData]

theorem BufferedSet_snd {T : Type} [DecidableEq T] (m : Bool) (dst src : T) :
    (BufferedSet m dst src).2 = src := by
  unfold BufferedSet
  split_ifs with h
  · exact h
  · rfl

theorem BufferedSet_fst {T : Type} [DecidableEq T] (m : Bool) (dst src : T) :
    (BufferedSet m dst src).1 = (m || decide (dst ≠ src)) := by
  unfold BufferedSet
  split_ifs with h <;> simp [h]

theorem matricesAfter_cached (env : Env) (s : State) :
    (matricesAfter env s).TextureMatrix =
      (if s.mTextureMatrixEnabled then s.mTextureMatrix else s.mIdentityMatrix) ∧
    (matricesAfter env s).ModelMatrix =
      (if s.mModelMatrixEnabled then s.mModelMatrix else s.mIdentityMatrix) ∧
    (s.mModelMatrixEnabled = false →
      (matricesAfter env s).NormalModelMatrix = s.mIdentityMatrix) := by
  simp only [matricesAfter, ApplyMatrices, BufferedSet_snd, BufferedSet_fst]
  cases hm : s.mModelMatrixEnabled
  · simp only [Bool.false_eq_true, if_false]
    refine ⟨?_, ?_, ?_⟩ <;> (split_ifs <;> simp)
  · simp only [if_true]
    refine ⟨?_, ?_, ?_⟩ <;> (split_ifs <;> simp)

/-- With the pending matrices already cached, `ApplyMatrices` moves the offset only
on the first call of a frame (offset 0). -/
theorem matricesOffsetAfter_of_cached (env : Env) (s : State) (offset : Nat)
    (hne : matricesOffsetAfter env s ≠ offset) (ho : s.mMatricesOffset = offset)
    (h : MatricesCached s) : offset = 0 := by
  subst ho
  obtain ⟨h1, h2, h3⟩ := h
  by_contra h0
  apply hne
  simp only [matricesOffsetAfter, ApplyMatrices, BufferedSet_snd, BufferedSet_fst]
  cases hm : s.mModelMatrixEnabled
  · simp [h0, h1, h2, h3 hm, hm]
  · simp [hm] at h2
    simp [h0, h1, h2, hm]

/-! ## The commands of the single steps -/

theorem renderPassCmds_mem (env : Env) (dt : Int) (s : State) (c : Cmd)
    (h : c ∈ renderPassCmds env dt s) :
    c = Cmd.endRenderPass ∨ c = Cmd.beginRenderPass (passKey env dt s) := by
  unfold renderPassCmds at h
  split_ifs at h <;> simp at h <;> tauto

theorem scissorCmds_mem (env : Env) (s : State) (c : Cmd) (h : c ∈ scissorCmds env s) :
    c = Cmd.setScissor (scissorRect env s) := by
  unfold scissorCmds at h
  split_ifs at h <;> simp at h; exact h

theorem viewportCmds_mem (env : Env) (s : State) (c : Cmd) (h : c ∈ viewportCmds env s) :
    c = Cmd.setViewport (viewportRect env s) := by
  unfold viewportCmds at h
  split_ifs at h <;> simp at h; exact h

theorem stencilRefCmds_mem (s : State) (c : Cmd) (h : c ∈ stencilRefCmds s) :
    c = Cmd.setStencilReference s.mStencilRef := by
  unfold stencilRefCmds at h
  split_ifs at h <;> simp at h; exact h

theorem depthBiasCmds_mem (s : State) (c : Cmd) (h : c ∈ depthBiasCmds s) :
    c = Cmd.setDepthBias s.mBias.mUnits 0 s.mBias.mFactor := by
  unfold depthBiasCmds at h
  split_ifs at h <;> simp at h; exact h

theorem vertexBufferCmds_mem (s : State) (c : Cmd) (h : c ∈ vertexBufferCmds s) :
    c = Cmd.bindVertexBuffers s.mVertexBuffer ∨ c = Cmd.bindIndexBuffer s.mIndexBuffer := by
  unfold vertexBufferCmds at h
  split_ifs at h <;> simp at h <;> tauto

theorem dynamicSetCmds_mem (env : Env) (s : State) (c : Cmd) (h : c ∈ dynamicSetCmds env s) :
    c = Cmd.bindDescriptorSet 0 env.DynamicSet
      [s.mViewpointOffset, s.mLightBufferOffset, s.mMatricesOffset, s.mStreamDataOffset] := by
  unfold dynamicSetCmds at h
  split_ifs at h <;> simp at h; exact h

theorem materialCmds_mem (env : Env) (s : State) (c : Cmd) (h : c ∈ materialCmds env s) :
    c = Cmd.bindDescriptorSet 1
      (env.GetDescriptorSet (env.GetLayer s.mMaterial.mMaterial s.mMaterial.mTranslation)
        s.mMaterial) [] := by
  unfold materialCmds at h
  split_ifs at h <;> simp at h; exact h

/-! ## What one `Apply` does -/

/-- What one `Apply` records: no draw call, and an index buffer bind only for the
index buffer that is set. -/
theorem Apply_commands (env : Env) (dt : Int) (s : State) (hvb : s.mVertexBuffer ≠ 0) :
    ∃ t cmds, Apply env dt s = some t ∧ t.mCommandBuffer = true ∧
      t.mIndexBuffer = s.mIndexBuffer ∧
      t.drawCommands = s.drawCommands ++ cmds ∧
      (∀ c ∈ cmds, c.isDraw = false) ∧
      (∀ b, Cmd.bindIndexBuffer b ∈ cmds → b = s.mIndexBuffer) := by
  cases hA : Apply env dt s with
  | none =>
    simp [Apply, ApplyRenderPass_eq, ApplyScissor_eq, ApplyViewport_eq, ApplyStencilRef_eq,
      ApplyDepthBias_eq, ApplyStreamData_eq, ApplyMatrices_eq, ApplyPushConstants_eq,
      ApplyVertexBuffers_eq, ApplyDynamicSet_eq, ApplyMaterial_eq, hvb, clearNeedApply] at hA
  | some t =>
    simp [Apply, ApplyRenderPass_eq, ApplyScissor_eq, ApplyViewport_eq, ApplyStencilRef_eq,
      ApplyDepthBias_eq, ApplyStreamData_eq, ApplyMatrices_eq, ApplyPushConstants_eq,
      ApplyVertexBuffers_eq, ApplyDynamicSet_eq, ApplyMaterial_eq, hvb, clearNeedApply] at hA
    subst hA
    refine ⟨_, _, rfl, rfl, rfl, rfl, ?_, ?_⟩
    · intro c hc
      simp only [List.mem_append, List.mem_cons, List.mem_singleton] at hc
      rcases hc with h | h | h | h | h | h | h | h | h
      · rcases renderPassCmds_mem _ _ _ _ h with h | h <;> (subst h; rfl)
      · rw [scissorCmds_mem _ _ _ h]; rfl
      · rw [viewportCmds_mem _ _ _ h]; rfl
      · rw [stencilRefCmds_mem _ _ h]; rfl
      · rw [depthBiasCmds_mem _ _ h]; rfl
      · subst h; rfl
      · rcases vertexBufferCmds_mem _ _ h with h | h <;> (subst h; rfl)
      · rw [dynamicSetCmds_mem _ _ _ h]; rfl
      · rw [materialCmds_mem _ _ _ h]; rfl
    · intro b hc
      simp only [List.mem_append, List.mem_cons, List.mem_singleton] at hc
      rcases hc with h | h | h | h | h | h | h | h | h
      · rcases renderPassCmds_mem _ _ _ _ h with h | h <;> cases h
      · cases scissorCmds_mem _ _ _ h
      · cases viewportCmds_mem _ _ _ h
      · cases stencilRefCmds_mem _ _ h
      · cases depthBiasCmds_mem _ _ h
      · cases h
      · rcases vertexBufferCmds_mem _ _ h with h | h
        · cases h
        · injection h
      · cases dynamicSetCmds_mem _ _ _ h
      · cases materialCmds_mem _ _ _ h

/-- The streamed block and the was-enabled shadows after one `Apply`. -/
theorem Apply_streamData (env : Env) (dt : Int) (s : State) (hvb : s.mVertexBuffer ≠ 0) :
    ∃ t, Apply env dt s = some t ∧ t.mVertexBuffer = s.mVertexBuffer ∧
      t.mLastGlowEnabled = s.mGlowEnabled ∧
      t.mLastGradientEnabled = s.mGradientEnabled ∧
      t.mLastSplitEnabled = s.mSplitEnabled ∧
      t.mStreamData = streamDataAfter env s ∧
      ∃ offset, t.StreamUBO_Memory = s.StreamUBO_Memory ++ [(offset, t.mStreamData)] := by
  cases hA : Apply env dt s with
  | none =>
    simp [Apply, ApplyRenderPass_eq, ApplyScissor_eq, ApplyViewport_eq, ApplyStencilRef_eq,
      ApplyDepthBias_eq, ApplyStreamData_eq, ApplyMatrices_eq, ApplyPushConstants_eq,
      ApplyVertexBuffers_eq, ApplyDynamicSet_eq, ApplyMaterial_eq, hvb, clearNeedApply] at hA
  | some t =>
    simp [Apply, ApplyRenderPass_eq, ApplyScissor_eq, ApplyViewport_eq, ApplyStencilRef_eq,
      ApplyDepthBias_eq, ApplyStreamData_eq, ApplyMatrices_eq, ApplyPushConstants_eq,
      ApplyVertexBuffers_eq, ApplyDynamicSet_eq, ApplyMaterial_eq, hvb, clearNeedApply] at hA
    subst hA
    refine ⟨_, rfl, rfl, rfl, rfl, rfl, ?_, _, rfl⟩
    simp [streamDataAfter_eq, fillStreamData]

/-- One `Apply` leaves a settled state with the pending matrices cached. -/
theorem Apply_settled (env : Env) (dt : Int) (s : State) (hvb : s.mVertexBuffer ≠ 0) :
    ∃ t, Apply env dt s = some t ∧ Settled env dt t ∧ MatricesCached t := by
  cases hA : Apply env dt s with
  | none =>
    simp [Apply, ApplyRenderPass_eq, ApplyScissor_eq, ApplyViewport_eq, ApplyStencilRef_eq,
      ApplyDepthBias_eq, ApplyStreamData_eq, ApplyMatrices_eq, ApplyPushConstants_eq,
      ApplyVertexBuffers_eq, ApplyDynamicSet_eq, ApplyMaterial_eq, hvb, clearNeedApply] at hA
  | some t =>
    simp [Apply, ApplyRenderPass_eq, ApplyScissor_eq, ApplyViewport_eq, ApplyStencilRef_eq,
      ApplyDepthBias_eq, ApplyStreamData_eq, ApplyMatrices_eq, ApplyPushConstants_eq,
      ApplyVertexBuffers_eq, ApplyDynamicSet_eq, ApplyMaterial_eq, hvb, clearNeedApply] at hA
    subst hA
    refine ⟨_, rfl, ⟨hvb, rfl, ?_, rfl, rfl, rfl, rfl, ?_, ?_, rfl, rfl, rfl, rfl, ?_⟩, ?_⟩
    · simp [passKey]
    · simp [hvb]
    · by_cases h : s.mIndexBuffer = 0 <;> simp [h]
    · by_cases h : s.mMaterial.mMaterial = 0 <;> simp [h]
    · exact matricesAfter_cached env _

/-- From a settled state `Apply(dt)` records the push constants and, when the matrices
or the stream-data offset moved, the dynamic descriptor set; nothing else. -/
theorem Apply_of_settled (env : Env) (dt : Int) (s : State) (h : Settled env dt s)
    (hm : MatricesCached s) :
    ∃ t, Apply env dt s = some t ∧
      t.drawCommands = s.drawCommands ++ (Cmd.pushConstants t.mPushConstants ::
        (if t.mMatricesOffset ≠ s.mMatricesOffset ∨
            t.mStreamDataOffset ≠ s.mStreamDataOffset then
          [Cmd.bindDescriptorSet 0 env.DynamicSet
            [t.mViewpointOffset, t.mLightBufferOffset, t.mMatricesOffset,
              t.mStreamDataOffset]]
        else [])) ∧
      (t.mStreamDataOffset ≠ s.mStreamDataOffset →
        s.mDataIndex + 1 = env.MAX_STREAM_DATA) ∧
      (t.mMatricesOffset ≠ s.mMatricesOffset → s.mMatricesOffset = 0) := by
  obtain ⟨hvb, hcb, hk, h1, h2, h3, h4, h5, h6, h7, h8, h9, h10, h11⟩ := h
  cases hA : Apply env dt s with
  | none =>
    simp [Apply, ApplyRenderPass_eq, ApplyScissor_eq, ApplyViewport_eq, ApplyStencilRef_eq,
      ApplyDepthBias_eq, ApplyStreamData_eq, ApplyMatrices_eq, ApplyPushConstants_eq,
      ApplyVertexBuffers_eq, ApplyDynamicSet_eq, ApplyMaterial_eq, hvb, clearNeedApply] at hA
  | some t =>
    simp [Apply, ApplyRenderPass_eq, ApplyScissor_eq, ApplyViewport_eq, ApplyStencilRef_eq,
      ApplyDepthBias_eq, ApplyStreamData_eq, ApplyMatrices_eq, ApplyPushConstants_eq,
      ApplyVertexBuffers_eq, ApplyDynamicSet_eq, ApplyMaterial_eq, hvb, clearNeedApply] at hA
    subst hA
    refine ⟨_, rfl, ?_, ?_, ?_⟩
    · have e1 : renderPassCmds env dt s = [] := by
        simp [renderPassCmds, hcb, ← hk]
      have e2 : s.mIndexBuffer = s.mLastIndexBuffer ∨ s.mIndexBuffer = 0 := by
        rcases h6 with h | h
        · exact Or.inr h
        · exact Or.inl h.symm
      have e3 : ¬ (s.mMaterial.mChanged = true ∧ s.mMaterial.mMaterial ≠ 0 ∧
          env.GetLayer s.mMaterial.mMaterial s.mMaterial.mTranslation ≠ 0) := by
        rintro ⟨a, b, _⟩
        rcases h11 with h | h
        · rw [h] at a; cases a
        · exact b h
      simp [e1, scissorCmds, viewportCmds, stencilRefCmds, depthBiasCmds, h1, h2, h3, h4, hcb,
        vertexBufferCmds, dynamicSetCmds, materialCmds, h5, h7, h8, h9, h10, e3]
      exact fun h => e2.resolve_left h
    · simp [nextStreamDataOffset]
      exact fun h _ => h
    · intro hne
      exact matricesOffsetAfter_of_cached env _ _ hne rfl hm

/-- Everything one `Apply` does that later statements need, for a state with a vertex
buffer set: it returns, the command buffer is active and the pass key stored, the ring
index and backing offset are the advanced ones, the push constants carry the ring index,
the stream block is written at backing offset plus block size times ring index, and the
recorded commands are listed step by step. -/
theorem Apply_trace (env : Env) (dt : Int) (s : State) (hvb : s.mVertexBuffer ≠ 0) :
    ∃ t, Apply env dt s = some t ∧
      t.mCommandBuffer = true ∧ t.mRenderPassKey = passKey env dt s ∧
      t.mDataIndex = nextDataIndex env s ∧
      t.mStreamDataOffset = nextStreamDataOffset env s ∧
      t.mPushConstants.uDataIndex = t.mDataIndex ∧
      t.mLastStreamDataOffset = t.mStreamDataOffset ∧
      t.StreamUBO_Memory = s.StreamUBO_Memory ++
        [((t.mStreamDataOffset : Int) + (env.sizeofStreamData : Int) * t.mDataIndex,
          t.mStreamData)] ∧
      t.mViewpointOffset = s.mViewpointOffset ∧
      t.mLightBufferOffset = s.mLightBufferOffset ∧
      t.drawCommands = s.drawCommands ++ (renderPassCmds env dt s ++
        ((if s.mScissorChanged = true ∨ s.mCommandBuffer = false
            then [Cmd.setScissor (scissorRect env s)] else []) ++
        ((if s.mViewportChanged = true ∨ s.mCommandBuffer = false
            then [Cmd.setViewport (viewportRect env s)] else []) ++
        ((if s.mStencilRefChanged = true ∨ s.mCommandBuffer = false
            then [Cmd.setStencilReference s.mStencilRef] else []) ++
        ((if s.mBias.mChanged = true ∨ s.mCommandBuffer = false
            then [Cmd.setDepthBias s.mBias.mUnits 0 s.mBias.mFactor] else []) ++
        (Cmd.pushConstants t.mPushConstants ::
        (vertexBufferCmds s ++
        ((if s.mViewpointOffset ≠ s.mLastViewpointOffset ∨
              s.mLightBufferOffset ≠ s.mLastLightBufferOffset ∨
              t.mMatricesOffset ≠ s.mLastMatricesOffset ∨
              t.mStreamDataOffset ≠ s.mLastStreamDataOffset
            then [Cmd.bindDescriptorSet 0 env.DynamicSet
              [s.mViewpointOffset, s.mLightBufferOffset, t.mMatricesOffset,
                t.mStreamDataOffset]]
            else []) ++
        materialCmds env s)))))))) := by
  cases hA : Apply env dt s with
  | none =>
    simp [Apply, ApplyRenderPass_eq, ApplyScissor_eq, ApplyViewport_eq, ApplyStencilRef_eq,
      ApplyDepthBias_eq, ApplyStreamData_eq, ApplyMatrices_eq, ApplyPushConstants_eq,
      ApplyVertexBuffers_eq, ApplyDynamicSet_eq, ApplyMaterial_eq, hvb, clearNeedApply] at hA
  | some t =>
    simp [Apply, ApplyRenderPass_eq, ApplyScissor_eq, ApplyViewport_eq, ApplyStencilRef_eq,
      ApplyDepthBias_eq, ApplyStreamData_eq, ApplyMatrices_eq, ApplyPushConstants_eq,
      ApplyVertexBuffers_eq, ApplyDynamicSet_eq, ApplyMaterial_eq, hvb, clearNeedApply] at hA
    subst hA
    refine ⟨_, rfl, rfl, rfl, ?_, ?_, ?_, rfl, ?_, rfl, rfl, ?_⟩
    · simp [nextDataIndex]
    · simp [nextStreamDataOffset]
    · simp [fillPushConstants]
    · simp [nextStreamDataOffset, nextDataIndex, streamDataAfter_eq, fillStreamData]
    · simp [scissorCmds, scissorRect, viewportCmds, viewportRect, stencilRefCmds, depthBiasCmds,
        vertexBufferCmds, dynamicSetCmds, materialCmds]

/-! ## The needs-apply bit across the single steps -/

theorem ApplyRenderPass_needApply (env : Env) (dt : Int) (s t : State)
    (h : ApplyRenderPass env dt s = some t) : t.mNeedApply = s.mNeedApply := by
  by_cases hvb : s.mVertexBuffer = 0
  · simp [ApplyRenderPass, hvb] at h
  · rw [ApplyRenderPass_eq env dt s hvb] at h
    simp only [Option.some.injEq] at h; subst h; rfl

theorem ApplyScissor_needApply (env : Env) (s t : State)
    (h : ApplyScissor env s = some t) : t.mNeedApply = s.mNeedApply := by
  by_cases hc : s.mCommandBuffer = true
  · rw [ApplyScissor_eq env s hc] at h
    simp only [Option.some.injEq] at h; subst h; rfl
  · unfold ApplyScissor emit at h
    split_ifs at h <;> simp at h
    subst h; rfl

theorem ApplyViewport_needApply (env : Env) (s t : State)
    (h : ApplyViewport env s = some t) : t.mNeedApply = s.mNeedApply := by
  by_cases hc : s.mCommandBuffer = true
  · rw [ApplyViewport_eq env s hc] at h
    simp only [Option.some.injEq] at h; subst h; rfl
  · unfold ApplyViewport emit at h
    split_ifs at h <;> simp at h
    subst h; rfl

theorem ApplyStencilRef_needApply (s t : State)
    (h : ApplyStencilRef s = some t) : t.mNeedApply = s.mNeedApply := by
  by_cases hc : s.mCommandBuffer = true
  · rw [ApplyStencilRef_eq s hc] at h
    simp only [Option.some.injEq] at h; subst h; rfl
  · unfold ApplyStencilRef emit at h
    split_ifs at h <;> simp at h
    subst h; rfl

theorem ApplyDepthBias_needApply (s t : State)
    (h : ApplyDepthBias s = some t) : t.mNeedApply = s.mNeedApply := by
  by_cases hc : s.mCommandBuffer = true
  · rw [ApplyDepthBias_eq s hc] at h
    simp only [Option.some.injEq] at h; subst h; rfl
  · unfold ApplyDepthBias emit at h
    split_ifs at h <;> simp at h
    subst h; rfl

theorem ApplyStreamData_needApply (env : Env) (s t : State)
    (h : ApplyStreamData env s = some t) : t.mNeedApply = s.mNeedApply := by
  by_cases hvb : s.mVertexBuffer = 0
  · simp [ApplyStreamData, hvb] at h
  · rw [ApplyStreamData_eq env s hvb] at h
    simp only [Option.some.injEq] at h; subst h; rfl

theorem ApplyPushConstants_needApply (env : Env) (s t : State)
    (h : ApplyPushConstants env s = some t) : t.mNeedApply = s.mNeedApply := by
  by_cases hc : s.mCommandBuffer = true
  · rw [ApplyPushConstants_eq env s hc] at h
    simp only [Option.some.injEq] at h; subst h; rfl
  · simp [ApplyPushConstants, emit, hc] at h

theorem ApplyVertexBuffers_needApply (s t : State)
    (h : ApplyVertexBuffers s = some t) : t.mNeedApply = s.mNeedApply := by
  by_cases hc : s.mCommandBuffer = true
  · rw [ApplyVertexBuffers_eq s hc] at h
    simp only [Option.some.injEq] at h; subst h; rfl
  · have hc2 : s.mCommandBuffer = false := by simpa using hc
    unfold ApplyVertexBuffers emit at h
    by_cases h1 : s.mVertexBuffer ≠ s.mLastVertexBuffer ∧ s.mVertexBuffer ≠ 0
    · simp [h1, hc2] at h
    · by_cases h2 : s.mIndexBuffer ≠ s.mLastIndexBuffer ∧ s.mIndexBuffer ≠ 0
      · simp [h1, h2, hc2] at h
      · simp only [if_neg h1, if_neg h2, Option.some_bind, Option.some.injEq] at h
        subst h; rfl

theorem ApplyDynamicSet_needApply (env : Env) (s t : State)
    (h : ApplyDynamicSet env s = some t) : t.mNeedApply = s.mNeedApply := by
  by_cases hc : s.mCommandBuffer = true
  · rw [ApplyDynamicSet_eq env s hc] at h
    simp only [Option.some.injEq] at h; subst h; rfl
  · unfold ApplyDynamicSet emit at h
    split_ifs at h <;> simp at h
    subst h; rfl

theorem ApplyMaterial_needApply (env : Env) (s t : State)
    (h : ApplyMaterial env s = some t) : t.mNeedApply = s.mNeedApply := by
  by_cases hc : s.mCommandBuffer = true
  · rw [ApplyMaterial_eq env s hc] at h
    simp only [Option.some.injEq] at h; subst h; rfl
  · have hc2 : s.mCommandBuffer = false := by simpa using hc
    unfold ApplyMaterial emit at h
    by_cases h1 : s.mMaterial.mChanged = true ∧ s.mMaterial.mMaterial ≠ 0
    · by_cases h2 : env.GetLayer s.mMaterial.mMaterial s.mMaterial.mTranslation ≠ 0
      · simp [h1, h2, hc2] at h
      · simp only [if_pos h1, if_neg h2, Option.map_some', Option.some.injEq] at h
        subst h; rfl
    · simp only [if_neg h1, Option.some.injEq] at h
      subst h; rfl

/-! ## The claims -/

/-- C1 (amended).  For every render state with an active command buffer and a vertex
buffer set, two `Apply(dt)` calls in succession both return, and the second one records
exactly one `pushConstants` command, followed by one bind of the dynamic descriptor set
(set 0) exactly when the matrices offset or the stream-data offset moved during that
second run; it records no render-pass end or begin, no `setScissor`, `setViewport`,
`setStencilReference`, `setDepthBias`, no vertex or index buffer bind and no material
descriptor set.  The stream-data offset moves only when the ring index wraps at
`MAX_STREAM_DATA`, the matrices offset only when it was still 0. -/
theorem C1_second_apply_commands (env : Env) (dt : Int) (s : State)
    (hvb : s.mVertexBuffer ≠ 0) (hcb : s.mCommandBuffer = true) :
    ∃ s1 s2, Apply env dt s = some s1 ∧ Apply env dt s1 = some s2 ∧
      s2.drawCommands = s1.drawCommands ++ (Cmd.pushConstants s2.mPushConstants ::
        (if s2.mMatricesOffset ≠ s1.mMatricesOffset ∨
            s2.mStreamDataOffset ≠ s1.mStreamDataOffset then
          [Cmd.bindDescriptorSet 0 env.DynamicSet
            [s2.mViewpointOffset, s2.mLightBufferOffset, s2.mMatricesOffset,
              s2.mStreamDataOffset]]
        else [])) ∧
      (s2.mStreamDataOffset ≠ s1.mStreamDataOffset →
        s1.mDataIndex + 1 = env.MAX_STREAM_DATA) ∧
      (s2.mMatricesOffset ≠ s1.mMatricesOffset → s1.mMatricesOffset = 0) := by
  have _ := hcb
  obtain ⟨s1, h1, hs, hm⟩ := Apply_settled env dt s hvb
  obtain ⟨s2, h2, hc, hw, hx⟩ := Apply_of_settled env dt s1 hs hm
  exact ⟨s1, s2, h1, h2, hc, hw, hx⟩

/-- C1, concrete instance of the amended statement on the sample state. -/
theorem C1_second_apply_commands_witness :
    ∃ s1 s2, Apply sampleEnv 4 sampleState = some s1 ∧ Apply sampleEnv 4 s1 = some s2 ∧
      s2.drawCommands = s1.drawCommands ++ (Cmd.pushConstants s2.mPushConstants ::
        (if s2.mMatricesOffset ≠ s1.mMatricesOffset ∨
            s2.mStreamDataOffset ≠ s1.mStreamDataOffset then
          [Cmd.bindDescriptorSet 0 sampleEnv.DynamicSet
            [s2.mViewpointOffset, s2.mLightBufferOffset, s2.mMatricesOffset,
              s2.mStreamDataOffset]]
        else [])) ∧
      (s2.mStreamDataOffset ≠ s1.mStreamDataOffset →
        s1.mDataIndex + 1 = sampleEnv.MAX_STREAM_DATA) ∧
      (s2.mMatricesOffset ≠ s1.mMatricesOffset → s1.mMatricesOffset = 0) :=
  C1_second_apply_commands sampleEnv 4 sampleState (by decide) (by decide)

/-- C1, counterexample to the claim as stated.  On the sample state with the ring index
at 254 (command buffer active, nothing touched between the two calls) the second
`Apply` records a `pushConstants` command and a bind of the dynamic descriptor set. -/
theorem C1_second_apply_counterexample :
    secondApplyCommands sampleEnv 4 { sampleState with mDataIndex := 254 } =
      some [Cmd.pushConstants ⟨0, 1056964608, (0, 0), 0, 0, 0, 0, 0, -1, 0⟩,
        Cmd.bindDescriptorSet 0 7 [0, 0, 256, 65536]] := by
  decide

/-- C2 (code evaluated at the failing input).  Target height 1080, viewport height 200,
scissor rectangle (x=10, y=20, w=100, h=50): `ApplyScissor` records offset.y = 860, that
is 1080 - 20 - 200 with the height of the viewport, where the claim asks for
1080 - 20 - 50 = 1010. -/
theorem C2_scissor_flip_uses_viewport_height :
    (ApplyScissor sampleEnv
        (SetScissor 10 20 100 50 (SetViewport 0 0 640 200 sampleState))).map
      (fun t => t.drawCommands) =
    some [Cmd.setScissor ⟨⟨10, 860⟩, ⟨100, 50⟩⟩] := by
  decide

/-- C3 (code evaluated at the failing input).  Scissor rectangle (x=-5, y=20, w=100,
h=50) on a target of height 1080 with viewport height 50: `ApplyScissor` clamps offset.x
to 0 but leaves the width at 100 and takes the 5 off the height (45), where the claim
asks for width 95 and height 50. -/
theorem C3_negative_x_shrinks_height :
    (ApplyScissor sampleEnv
        (SetScissor (-5) 20 100 50 (SetViewport 0 0 640 50 sampleState))).map
      (fun t => t.drawCommands) =
    some [Cmd.setScissor ⟨⟨0, 1010⟩, ⟨100, 45⟩⟩] := by
  decide

/-- C4 (amended).  For the same draw type and sample count, two snapshots that agree on
depth test/write/func/clamp/bias, stencil test/op/ref, colour mask, cull mode, material
and special effect, and also on the vertex format of the bound vertex buffer, the render
style, the texture-enabled flag and the alpha threshold, yield equal pass keys. -/
theorem C4_pass_key_agreement (env : Env) (dt : Int) (a b : State)
    (h : agreeOnClaimedKeyFields a b)
    (hvf : env.VertexFormat a.mVertexBuffer = env.VertexFormat b.mVertexBuffer)
    (hrs : a.mRenderStyle = b.mRenderStyle)
    (hte : a.mTextureEnabled = b.mTextureEnabled)
    (hat : a.mAlphaThreshold = b.mAlphaThreshold) :
    passKey env dt a = passKey env dt b := by
  obtain ⟨h1, h2, h3, h4, h5, h6, h7, _, h9, h10, h11, h12⟩ := h
  simp only [passKey, h1, h2, h3, h4, h5, h6, h7, h9, h10, h11, h12, hvf, hrs, hte, hat]

/-- C4, concrete instance: changing the scissor rectangle leaves the pass key alone. -/
theorem C4_pass_key_agreement_witness :
    passKey sampleEnv 4 sampleState =
      passKey sampleEnv 4 (SetScissor 1 2 3 4 sampleState) :=
  C4_pass_key_agreement sampleEnv 4 sampleState (SetScissor 1 2 3 4 sampleState)
    (by decide) rfl rfl rfl rfl

/-- C4, counterexample to the claim as stated.  Four pairs of snapshots that agree on
every field the claim lists and differ in one other field only (render style, texture
enabled, alpha threshold, bound vertex buffer) have different pass keys. -/
theorem C4_pass_key_counterexample :
    (agreeOnClaimedKeyFields sampleState { sampleState with mRenderStyle := 1 } ∧
      passKey sampleEnv 4 sampleState ≠
        passKey sampleEnv 4 { sampleState with mRenderStyle := 1 }) ∧
    (agreeOnClaimedKeyFields sampleState { sampleState with mTextureEnabled := false } ∧
      passKey sampleEnv 4 sampleState ≠
        passKey sampleEnv 4 { sampleState with mTextureEnabled := false }) ∧
    (agreeOnClaimedKeyFields sampleState { sampleState with mAlphaThreshold := 3204448256 } ∧
      passKey sampleEnv 4 sampleState ≠
        passKey sampleEnv 4 { sampleState with mAlphaThreshold := 3204448256 }) ∧
    (agreeOnClaimedKeyFields sampleState { sampleState with mVertexBuffer := 3 } ∧
      passKey { sampleEnv with VertexFormat := fun b => b } 4 sampleState ≠
        passKey { sampleEnv with VertexFormat := fun b => b } 4
          { sampleState with mVertexBuffer := 3 }) := by
  decide

/-- C5 (the code overruns the buffer).  Whatever the capacity of the stream buffer
(below 2^32 minus one block), some number of `Apply` calls within one frame makes the
last stream-data write end beyond it: the write offset
`mStreamDataOffset + sizeof(StreamData) * mDataIndex` is never compared with the
capacity. -/
theorem C5_stream_write_overruns (env : Env) (dt : Int) (s : State) (capacity N : Nat)
    (hN : env.MAX_STREAM_DATA = N) (hpos : 0 < N) (hvb : s.mVertexBuffer ≠ 0)
    (hU : 0 < env.sizeofStreamUBO) (hcap : capacity + env.sizeofStreamUBO < 4294967296) :
    ∃ n t off data, applyN env dt n (EndFrame s) = some t ∧
      t.StreamUBO_Memory.getLast? = some (off, data) ∧
      off = (t.mStreamDataOffset : Int) + (env.sizeofStreamData : Int) * t.mDataIndex ∧
      (capacity : Int) < off + env.sizeofStreamData := by
  obtain ⟨t, ht, _, hi, ho, hm⟩ := iterateStep_blocks env (Apply env dt)
    (Apply_ringStep env dt) N hN hpos s hvb (capacity / env.sizeofStreamUBO + 1)
  have hlt : capacity < (capacity / env.sizeofStreamUBO + 1) * env.sizeofStreamUBO := by
    have := Nat.lt_succ_self (capacity / env.sizeofStreamUBO)
    exact (Nat.div_lt_iff_lt_mul hU).1 this
  have hle : (capacity / env.sizeofStreamUBO + 1) * env.sizeofStreamUBO ≤
      capacity + env.sizeofStreamUBO := by
    rw [Nat.add_mul, Nat.one_mul]
    exact Nat.add_le_add_right (Nat.div_mul_le_self _ _) _
  have hw : wrapU32 ((capacity / env.sizeofStreamUBO + 1) * env.sizeofStreamUBO) =
      (capacity / env.sizeofStreamUBO + 1) * env.sizeofStreamUBO := by
    unfold wrapU32; exact Nat.mod_eq_of_lt (by omega)
  rw [hw] at ho hm
  refine ⟨_, t, _, _, ht, hm, ?_, ?_⟩
  · rw [ho, hi]; simp
  · have : (capacity : Int) <
        (((capacity / env.sizeofStreamUBO + 1) * env.sizeofStreamUBO : Nat) : Int) := by
      exact_mod_cast hlt
    omega

/-- C5, concrete instance: a stream buffer of 200 blocks of 65536 bytes. -/
theorem C5_stream_write_overruns_witness :
    ∃ n t off data, applyN sampleEnv 4 n (EndFrame sampleState) = some t ∧
      t.StreamUBO_Memory.getLast? = some (off, data) ∧
      off = (t.mStreamDataOffset : Int) + (sampleEnv.sizeofStreamData : Int) * t.mDataIndex ∧
      ((13107200 : Nat) : Int) < off + sampleEnv.sizeofStreamData :=
  C5_stream_write_overruns sampleEnv 4 sampleState 13107200 256 rfl (by decide) (by decide)
    (by decide) (by decide)

/-- C6.  Starting from the state `EndFrame` leaves and with `N = MAX_STREAM_DATA`, the
k-th of `N + 1` consecutive `ApplyStreamData` calls, for `1 ≤ k ≤ N`, writes at ring
index `k - 1` (byte `sizeof(StreamData) * (k - 1)`) with the backing offset still 0, and
call `N + 1` resets the ring index to 0 and advances `mStreamDataOffset` once, by
`sizeof(StreamUBO)`. -/
theorem C6_ring_wraparound (env : Env) (s : State) (N : Nat)
    (hN : env.MAX_STREAM_DATA = N) (hvb : s.mVertexBuffer ≠ 0)
    (hU : env.sizeofStreamUBO < 4294967296) :
    (∀ k : Nat, 1 ≤ k → k ≤ N → ∃ t, applyStreamDataN env k (EndFrame s) = some t ∧
      t.mDataIndex = (k : Int) - 1 ∧ t.mStreamDataOffset = 0 ∧
      t.StreamUBO_Memory.getLast? =
        some ((env.sizeofStreamData : Int) * ((k : Int) - 1), t.mStreamData)) ∧
    (∃ t, applyStreamDataN env (N + 1) (EndFrame s) = some t ∧
      t.mDataIndex = 0 ∧ t.mStreamDataOffset = env.sizeofStreamUBO ∧
      t.StreamUBO_Memory.getLast? = some ((env.sizeofStreamUBO : Int), t.mStreamData)) := by
  have hstep := ApplyStreamData_ringStep env
  have base : ∀ k : Nat, k ≤ N → ∃ t, applyStreamDataN env k (EndFrame s) = some t ∧
      t.mVertexBuffer = s.mVertexBuffer ∧
      t.mDataIndex = (k : Int) - 1 ∧ t.mStreamDataOffset = 0 ∧
      (1 ≤ k → t.StreamUBO_Memory.getLast? =
        some ((env.sizeofStreamData : Int) * ((k : Int) - 1), t.mStreamData)) := by
    intro k hk
    obtain ⟨t, ht, hv, hi, ho, hm⟩ := iterateStep_noWrap env _ hstep k (EndFrame s) hvb
      (by simp only [EndFrame, hN]; omega)
    refine ⟨t, ht, hv, ?_, ?_, ?_⟩
    · rw [hi]; simp only [EndFrame]; ring
    · rw [ho]; simp [EndFrame]
    · intro h1
      rw [hm h1]; simp only [EndFrame]; congr 2
      push_cast; ring
  refine ⟨fun k h1 hk => ?_, ?_⟩
  · obtain ⟨t, ht, _, hi, ho, hm⟩ := base k hk
    exact ⟨t, ht, hi, ho, hm h1⟩
  · obtain ⟨t, ht, hv, hi, ho, _⟩ := base N (le_refl N)
    obtain ⟨w, hw, _, hwi, hwo, hwm⟩ := ringStep_wrap env _ hstep t
      (by rw [hv]; exact hvb) (by rw [hi, hN]; ring)
    have hoff : wrapU32 (t.mStreamDataOffset + env.sizeofStreamUBO) = env.sizeofStreamUBO := by
      rw [ho]; simp only [wrapU32, Nat.zero_add]; exact Nat.mod_eq_of_lt hU
    rw [hoff] at hwo hwm
    refine ⟨w, ?_, hwi, hwo, hwm⟩
    unfold applyStreamDataN at ht ⊢
    simp [iterateStep, ht, hw]

/-- C6, concrete instance: the ring of 256 entries of the sample environment. -/
theorem C6_ring_wraparound_witness :
    (∀ k : Nat, 1 ≤ k → k ≤ 256 → ∃ t,
      applyStreamDataN sampleEnv k (EndFrame sampleState) = some t ∧
      t.mDataIndex = (k : Int) - 1 ∧ t.mStreamDataOffset = 0 ∧
      t.StreamUBO_Memory.getLast? =
        some ((sampleEnv.sizeofStreamData : Int) * ((k : Int) - 1), t.mStreamData)) ∧
    (∃ t, applyStreamDataN sampleEnv (256 + 1) (EndFrame sampleState) = some t ∧
      t.mDataIndex = 0 ∧ t.mStreamDataOffset = sampleEnv.sizeofStreamUBO ∧
      t.StreamUBO_Memory.getLast? = some ((sampleEnv.sizeofStreamUBO : Int), t.mStreamData)) :=
  C6_ring_wraparound sampleEnv sampleState 256 rfl (by decide) (by decide)

/-- C7.  For each of the glow, gradient and split features, one `Apply` on a state with a
vertex buffer returns, writes its streamed block to the stream buffer, and: with the
feature enabled it leaves the was-enabled shadow set; with the feature disabled and the
shadow set (the previous `Apply` ran with the feature enabled) it overwrites the
feature's streamed fields with zeros (glow: top and bottom colour; gradient: second
object colour; split: top and bottom plane) and clears the shadow; with the feature
disabled and the shadow clear (every later `Apply`, as only `EndRenderPass` sets the
shadow again) it leaves every streamed field of the feature as it was and the shadow
clear. -/
theorem C7_reset_on_disable (env : Env) (dt : Int) (s : State) (hvb : s.mVertexBuffer ≠ 0) :
    ∃ t, Apply env dt s = some t ∧
      (∃ offset, t.StreamUBO_Memory = s.StreamUBO_Memory ++ [(offset, t.mStreamData)]) ∧
      (s.mGlowEnabled = true → t.mLastGlowEnabled = true) ∧
      (s.mGlowEnabled = false → s.mLastGlowEnabled = true →
        t.mStreamData.uGlowTopColor = FVector4.zero ∧
        t.mStreamData.uGlowBottomColor = FVector4.zero ∧ t.mLastGlowEnabled = false) ∧
      (s.mGlowEnabled = false → s.mLastGlowEnabled = false →
        glowFields t.mStreamData = glowFields s.mStreamData ∧ t.mLastGlowEnabled = false) ∧
      (s.mGradientEnabled = true → t.mLastGradientEnabled = true) ∧
      (s.mGradientEnabled = false → s.mLastGradientEnabled = true →
        t.mStreamData.uObjectColor2 = FVector4.zero ∧ t.mLastGradientEnabled = false) ∧
      (s.mGradientEnabled = false → s.mLastGradientEnabled = false →
        gradientFields t.mStreamData = gradientFields s.mStreamData ∧
        t.mLastGradientEnabled = false) ∧
      (s.mSplitEnabled = true → t.mLastSplitEnabled = true) ∧
      (s.mSplitEnabled = false → s.mLastSplitEnabled = true →
        t.mStreamData.uSplitTopPlane = FVector4.zero ∧
        t.mStreamData.uSplitBottomPlane = FVector4.zero ∧ t.mLastSplitEnabled = false) ∧
      (s.mSplitEnabled = false → s.mLastSplitEnabled = false →
        splitFields t.mStreamData = splitFields s.mStreamData ∧
        t.mLastSplitEnabled = false) := by
  obtain ⟨t, ht, _, hg, hr, hs, hd, hm⟩ := Apply_streamData env dt s hvb
  refine ⟨t, ht, hm, ?_, ?_, ?_, ?_, ?_, ?_, ?_, ?_, ?_⟩
  · intro h; rw [hg, h]
  · intro h1 h2; rw [hg, hd, streamDataAfter_eq]; simp [h1, h2]
  · intro h1 h2; rw [hg, hd, streamDataAfter_eq]; simp [h1, h2, glowFields]
  · intro h; rw [hr, h]
  · intro h1 h2; rw [hr, hd, streamDataAfter_eq]; simp [h1, h2]
  · intro h1 h2; rw [hr, hd, streamDataAfter_eq]; simp [h1, h2, gradientFields]
  · intro h; rw [hs, h]
  · intro h1 h2; rw [hs, hd, streamDataAfter_eq]; simp [h1, h2]
  · intro h1 h2; rw [hs, hd, streamDataAfter_eq]; simp [h1, h2, splitFields]

/-- C7, concrete instance: the sample state with all three features disabled and all
three shadows still set; the `Apply` zeroes the streamed fields and clears the shadows. -/
theorem C7_reset_on_disable_witness :
    ∃ t, Apply sampleEnv 4 { sampleState with
        mLastGlowEnabled := true, mLastGradientEnabled := true,
        mLastSplitEnabled := true } = some t ∧
      (t.mStreamData.uGlowTopColor = FVector4.zero ∧
        t.mStreamData.uGlowBottomColor = FVector4.zero ∧ t.mLastGlowEnabled = false) ∧
      (t.mStreamData.uObjectColor2 = FVector4.zero ∧ t.mLastGradientEnabled = false) ∧
      (t.mStreamData.uSplitTopPlane = FVector4.zero ∧
        t.mStreamData.uSplitBottomPlane = FVector4.zero ∧ t.mLastSplitEnabled = false) := by
  obtain ⟨t, ht, _, _, hg, _, _, hr, _, _, hs, _⟩ :=
    C7_reset_on_disable sampleEnv 4 { sampleState with
      mLastGlowEnabled := true, mLastGradientEnabled := true,
      mLastSplitEnabled := true } (by decide)
  exact ⟨t, ht, hg rfl rfl, hr rfl rfl, hs rfl rfl⟩

/-- C8.  On a state on which the call is defined (a vertex buffer is set when the call
applies, a command buffer is active when it does not), `VkRenderStateMolten::Draw` with
`DT_TriangleFan`, first index `index` and count `count` returns and records exactly one
draw command, the last command of the call: an indexed draw with index count
`(count - 2) * 3`, first index 0 and vertex offset `index`; every index buffer bind
recorded during the call binds the fan-to-triangles index buffer; and `mIndexBuffer`
after the call is what it was before. -/
theorem C8_molten_fan_draw (env : Env) (s : State) (index count : Int) (apply : Bool)
    (hvb : apply = true ∨ s.mNeedApply = true → s.mVertexBuffer ≠ 0)
    (hcb : apply = false → s.mNeedApply = false → s.mCommandBuffer = true) :
    ∃ t cmds, VkRenderStateMolten.Draw env env.DT_TriangleFan index count apply s = some t ∧
      t.drawCommands =
        s.drawCommands ++ cmds ++ [Cmd.drawIndexed ((count - 2) * 3) 1 0 index 0] ∧
      (∀ c ∈ cmds, c.isDraw = false) ∧
      (∀ b, Cmd.bindIndexBuffer b ∈ cmds → b = env.FanToTrisIndexBuffer) ∧
      t.mIndexBuffer = s.mIndexBuffer := by
  unfold VkRenderStateMolten.Draw
  rw [if_pos rfl]
  by_cases ha : (apply || s.mNeedApply) = true
  · have hv : s.mVertexBuffer ≠ 0 := hvb (by simpa using ha)
    obtain ⟨t, cmds, ht, hc, hi, hd, h1, h2⟩ :=
      Apply_commands env env.DT_Triangles { s with mIndexBuffer := env.FanToTrisIndexBuffer } hv
    refine ⟨{ t with
        drawCommands := t.drawCommands ++ [Cmd.drawIndexed ((count - 2) * 3) 1 0 index 0]
        mIndexBuffer := s.mIndexBuffer }, cmds, ?_, ?_, h1, h2, rfl⟩
    · simp only [ha, if_true, ht, Option.some_bind, emit, hc, Option.map_some']
    · simp [hd]
  · have hn : apply = false ∧ s.mNeedApply = false := by simpa using ha
    have hc : s.mCommandBuffer = true := hcb hn.1 hn.2
    have hV := ApplyVertexBuffers_eq { s with mIndexBuffer := env.FanToTrisIndexBuffer } hc
    simp only [ha, Bool.false_eq_true, if_false]
    rw [hV]
    simp only [Option.some_bind, emit, hc, if_true, Option.map_some']
    refine ⟨_, vertexBufferCmds { s with mIndexBuffer := env.FanToTrisIndexBuffer }, rfl, rfl,
      ?_, ?_, rfl⟩
    · intro c h
      rcases vertexBufferCmds_mem _ _ h with h | h <;> (subst h; rfl)
    · intro b h
      rcases vertexBufferCmds_mem _ _ h with h | h
      · cases h
      · injection h

/-- C8, concrete instance: a fan of 6 vertices starting at index 8 gives an indexed draw
of 12 indices with vertex offset 8. -/
theorem C8_molten_fan_draw_witness :
    ∃ t cmds, VkRenderStateMolten.Draw sampleEnv sampleEnv.DT_TriangleFan 8 6 true
        sampleState = some t ∧
      t.drawCommands =
        sampleState.drawCommands ++ cmds ++ [Cmd.drawIndexed ((6 - 2) * 3) 1 0 8 0] ∧
      (∀ c ∈ cmds, c.isDraw = false) ∧
      (∀ b, Cmd.bindIndexBuffer b ∈ cmds → b = sampleEnv.FanToTrisIndexBuffer) ∧
      t.mIndexBuffer = sampleState.mIndexBuffer :=
  C8_molten_fan_draw sampleEnv sampleState 8 6 true (fun _ => by decide)
    (fun h => absurd h (by decide))

/-- C9.  After `EndFrame` the matrix offset and the stream-data offset are both 0, and
the next `ApplyStreamData` (vertex buffer set, `MAX_STREAM_DATA` positive) returns and
writes its block at ring index 0 with backing offset 0, that is at byte 0 of the stream
buffer. -/
theorem C9_end_frame_reset (env : Env) (s : State)
    (hN : 0 < env.MAX_STREAM_DATA) (hvb : s.mVertexBuffer ≠ 0) :
    (EndFrame s).mMatricesOffset = 0 ∧ (EndFrame s).mStreamDataOffset = 0 ∧
    ∃ t, ApplyStreamData env (EndFrame s) = some t ∧
      t.mDataIndex = 0 ∧ t.mStreamDataOffset = 0 ∧
      t.StreamUBO_Memory = (EndFrame s).StreamUBO_Memory ++ [(0, t.mStreamData)] := by
  refine ⟨rfl, rfl, ?_⟩
  obtain ⟨t, ht, _, hi, ho, hm⟩ := ApplyStreamData_ringStep env (EndFrame s) hvb
  have hne : (EndFrame s).mDataIndex + 1 ≠ env.MAX_STREAM_DATA := by
    simp only [EndFrame]; omega
  have hi0 : t.mDataIndex = 0 := by
    rw [hi, nextDataIndex, if_neg hne]; simp [EndFrame]
  have ho0 : t.mStreamDataOffset = 0 := by
    rw [ho, nextStreamDataOffset, if_neg hne]; simp [EndFrame]
  refine ⟨t, ht, hi0, ho0, ?_⟩
  rw [hm, ho0, hi0]; simp

/-- C9, concrete instance on the sample state. -/
theorem C9_end_frame_reset_witness :
    (EndFrame sampleState).mMatricesOffset = 0 ∧ (EndFrame sampleState).mStreamDataOffset = 0 ∧
    ∃ t, ApplyStreamData sampleEnv (EndFrame sampleState) = some t ∧
      t.mDataIndex = 0 ∧ t.mStreamDataOffset = 0 ∧
      t.StreamUBO_Memory = (EndFrame sampleState).StreamUBO_Memory ++ [(0, t.mStreamData)] :=
  C9_end_frame_reset sampleEnv sampleState (by decide) (by decide)

/-- C10.  Every setter that changes a state field (`SetDepthClamp`, `SetDepthMask`,
`SetDepthFunc`, `SetDepthRange`, `SetColorMask`, `SetStencil`, `SetCulling`,
`EnableStencil`, `EnableDepthTest`, `SetScissor`, `SetViewport`, and `Bind` for the
viewpoint or the light-buffer binding point) returns with `mNeedApply = true`;
`EndRenderPass` and `EndFrame` leave `mNeedApply` as it is, and so does each of the
eleven steps `Apply` runs; `Apply` itself returns with `mNeedApply = false`, set by its
last statement. -/
theorem C10_need_apply_invariant (env : Env) (s : State) :
    ((∀ b, (SetDepthClamp b s).2.mNeedApply = true) ∧
     (∀ b, (SetDepthMask b s).mNeedApply = true) ∧
     (∀ f, (SetDepthFunc f s).mNeedApply = true) ∧
     (∀ lo hi, (SetDepthRange lo hi s).mNeedApply = true) ∧
     (∀ r g b a, (SetColorMask r g b a s).mNeedApply = true) ∧
     (∀ offs op flags, (SetStencil env offs op flags s).mNeedApply = true) ∧
     (∀ mode, (SetCulling mode s).mNeedApply = true) ∧
     (∀ b, (EnableStencil b s).mNeedApply = true) ∧
     (∀ b, (EnableDepthTest b s).mNeedApply = true) ∧
     (∀ x y w h, (SetScissor x y w h s).mNeedApply = true) ∧
     (∀ x y w h, (SetViewport x y w h s).mNeedApply = true) ∧
     (∀ offset, (Bind env env.VIEWPOINT_BINDINGPOINT offset s).mNeedApply = true) ∧
     (∀ offset, (Bind env env.LIGHTBUF_BINDINGPOINT offset s).mNeedApply = true)) ∧
    ((EndRenderPass s).mNeedApply = s.mNeedApply ∧ (EndFrame s).mNeedApply = s.mNeedApply) ∧
    ((∀ dt t, ApplyRenderPass env dt s = some t → t.mNeedApply = s.mNeedApply) ∧
     (∀ t, ApplyScissor env s = some t → t.mNeedApply = s.mNeedApply) ∧
     (∀ t, ApplyViewport env s = some t → t.mNeedApply = s.mNeedApply) ∧
     (∀ t, ApplyStencilRef s = some t → t.mNeedApply = s.mNeedApply) ∧
     (∀ t, ApplyDepthBias s = some t → t.mNeedApply = s.mNeedApply) ∧
     (∀ t, ApplyStreamData env s = some t → t.mNeedApply = s.mNeedApply) ∧
     (ApplyMatrices env s).mNeedApply = s.mNeedApply ∧
     (∀ t, ApplyPushConstants env s = some t → t.mNeedApply = s.mNeedApply) ∧
     (∀ t, ApplyVertexBuffers s = some t → t.mNeedApply = s.mNeedApply) ∧
     (∀ t, ApplyDynamicSet env s = some t → t.mNeedApply = s.mNeedApply) ∧
     (∀ t, ApplyMaterial env s = some t → t.mNeedApply = s.mNeedApply)) ∧
    (∀ dt, s.mVertexBuffer ≠ 0 →
      ∃ u t, Apply env dt s = some t ∧ t = clearNeedApply u ∧ t.mNeedApply = false) := by
  refine ⟨⟨?_, ?_, ?_, ?_, ?_, ?_, ?_, ?_, ?_, ?_, ?_, ?_, ?_⟩, ⟨?_, ?_⟩,
    ⟨?_, ?_, ?_, ?_, ?_, ?_, ?_, ?_, ?_, ?_, ?_⟩, ?_⟩
  · intro b; rfl
  · intro b; rfl
  · intro f; rfl
  · intro lo hi; rfl
  · intro r g b a; rfl
  · intro offs op flags; rfl
  · intro mode; rfl
  · intro b; rfl
  · intro b; rfl
  · intro x y w h; rfl
  · intro x y w h; rfl
  · intro offset; simp [Bind]
  · intro offset; unfold Bind; split_ifs with h1 h2
    · rfl
    · rfl
    · exact absurd rfl h2
  · unfold EndRenderPass; split_ifs <;> rfl
  · rfl
  · exact fun dt t h => ApplyRenderPass_needApply env dt s t h
  · exact fun t h => ApplyScissor_needApply env s t h
  · exact fun t h => ApplyViewport_needApply env s t h
  · exact fun t h => ApplyStencilRef_needApply s t h
  · exact fun t h => ApplyDepthBias_needApply s t h
  · exact fun t h => ApplyStreamData_needApply env s t h
  · rw [ApplyMatrices_eq]
  · exact fun t h => ApplyPushConstants_needApply env s t h
  · exact fun t h => ApplyVertexBuffers_needApply s t h
  · exact fun t h => ApplyDynamicSet_needApply env s t h
  · exact fun t h => ApplyMaterial_needApply env s t h
  · intro dt hvb
    cases hA : Apply env dt s with
    | none =>
      simp [Apply, ApplyRenderPass_eq, ApplyScissor_eq, ApplyViewport_eq, ApplyStencilRef_eq,
        ApplyDepthBias_eq, ApplyStreamData_eq, ApplyMatrices_eq, ApplyPushConstants_eq,
        ApplyVertexBuffers_eq, ApplyDynamicSet_eq, ApplyMaterial_eq, hvb, clearNeedApply] at hA
    | some t =>
      have hA2 := hA
      simp [Apply, ApplyRenderPass_eq, ApplyScissor_eq, ApplyViewport_eq, ApplyStencilRef_eq,
        ApplyDepthBias_eq, ApplyStreamData_eq, ApplyMatrices_eq, ApplyPushConstants_eq,
        ApplyVertexBuffers_eq, ApplyDynamicSet_eq, ApplyMaterial_eq, hvb] at hA2
      exact ⟨_, t, rfl, hA2.symm, by rw [← hA2]; rfl⟩

/-- C10, concrete instance: `Apply` on the sample state, marked dirty by `SetScissor`,
returns with the needs-apply bit cleared. -/
theorem C10_need_apply_invariant_witness :
    (SetScissor 0 0 8 8 sampleState).mNeedApply = true ∧
    ∃ t, Apply sampleEnv 4 (SetScissor 0 0 8 8 sampleState) = some t ∧
      t.mNeedApply = false := by
  obtain ⟨_, _, _, hA⟩ := C10_need_apply_invariant sampleEnv (SetScissor 0 0 8 8 sampleState)
  obtain ⟨_, t, ht, _, hn⟩ := hA 4 (by decide)
  exact ⟨rfl, t, ht, hn⟩

/-- C11.  `SetStencil(offs, op, flags)` sets the stencil reference to the screen's stencil
value plus `offs`, marks it changed and stores `op`.  When `flags` is not -1 the colour
mask becomes 15 if the `SF_ColorMaskOff` bit is clear and 0 otherwise, and depth write is
on exactly when the `SF_DepthMaskOff` bit is clear.  When `flags` is -1 the colour mask
and the depth-write flag keep their previous values. -/
theorem C11_set_stencil (env : Env) (offs op flags : Int) (s : State) :
    (SetStencil env offs op flags s).mStencilRef = env.stencilValue + offs ∧
    (SetStencil env offs op flags s).mStencilRefChanged = true ∧
    (SetStencil env offs op flags s).mStencilOp = op ∧
    (flags ≠ -1 →
      (SetStencil env offs op flags s).mColorMask =
        (if flagSet flags env.SF_ColorMaskOff = false then 15 else 0) ∧
      (SetStencil env offs op flags s).mDepthWrite =
        decide (flagSet flags env.SF_DepthMaskOff = false)) ∧
    (flags = -1 →
      (SetStencil env offs op flags s).mColorMask = s.mColorMask ∧
      (SetStencil env offs op flags s).mDepthWrite = s.mDepthWrite) := by
  refine ⟨?_, ?_, ?_, ?_, ?_⟩
  · unfold SetStencil; simp only []; split_ifs <;> rfl
  · unfold SetStencil; simp only []; split_ifs <;> rfl
  · unfold SetStencil; simp only []; split_ifs <;> rfl
  · intro h
    unfold SetStencil
    simp only [if_pos h, SetColorMask, boolToInt]
    cases flagSet flags env.SF_ColorMaskOff <;> cases flagSet flags env.SF_DepthMaskOff <;>
      simp
  · intro h
    subst h
    exact ⟨rfl, rfl⟩

/-- C11, concrete instances: with `flags = 1` (`SF_ColorMaskOff`) the colour mask is 0
and depth write is on; with `flags = -1` both keep the values of the sample state. -/
theorem C11_set_stencil_witness :
    ((SetStencil sampleEnv 2 3 1 sampleState).mColorMask = 0 ∧
      (SetStencil sampleEnv 2 3 1 sampleState).mDepthWrite = true) ∧
    ((SetStencil sampleEnv 2 3 (-1) sampleState).mColorMask = sampleState.mColorMask ∧
      (SetStencil sampleEnv 2 3 (-1) sampleState).mDepthWrite = sampleState.mDepthWrite) := by
  obtain ⟨_, _, _, h1, _⟩ := C11_set_stencil sampleEnv 2 3 1 sampleState
  obtain ⟨_, _, _, _, h2⟩ := C11_set_stencil sampleEnv 2 3 (-1) sampleState
  exact ⟨h1 (by decide), h2 rfl⟩

/-- C12.  `Apply` on a state without a command buffer whose material 5 has a base layer
and a clear changed flag acquires a command buffer and records the render pass begin, the
four dynamic states, the push constants, both buffer binds and descriptor set 0, but no
bind of descriptor set 1.  The state is reached through the interface: starting from a
material whose changed flag is set, a first `Apply` binds set 1 and clears the flag,
`EndRenderPass` closes the command buffer, and the `Apply` that follows records everything
listed except the bind of set 1. -/
theorem C12_material_not_rebound :
    ((Apply sampleEnv 4 { sampleState with
        mCommandBuffer := false, mMaterial := ⟨5, 0, 0, -1, false⟩ }).map
      (fun t => t.drawCommands) =
    some [Cmd.beginRenderPass
        ⟨4, 0, 0, false, false, 0, false, false, false, 0, 15, 0, 1, -1, 0, true⟩,
      Cmd.setScissor ⟨⟨0, 0⟩, ⟨1920, 1080⟩⟩,
      Cmd.setViewport ⟨0, 0, 1920, 1080, 0, 1065353216⟩,
      Cmd.setStencilReference 0,
      Cmd.setDepthBias 0 0 0,
      Cmd.pushConstants ⟨0, 1056964608, (0, 0), 0, 0, 0, 0, 0, -1, 0⟩,
      Cmd.bindVertexBuffers 1,
      Cmd.bindIndexBuffer 2,
      Cmd.bindDescriptorSet 0 7 [0, 0, 256, 0]] ∧
    sampleEnv.GetLayer 5 0 ≠ 0) ∧
    ((Apply sampleEnv 4 { sampleState with
        mCommandBuffer := false, mMaterial := ⟨5, 0, 0, -1, true⟩ }).bind
      (fun t => Apply sampleEnv 4 (EndRenderPass t))).map (fun t => t.drawCommands) =
    some [Cmd.beginRenderPass
        ⟨4, 0, 0, false, false, 0, false, false, false, 0, 15, 0, 1, -1, 0, true⟩,
      Cmd.setScissor ⟨⟨0, 0⟩, ⟨1920, 1080⟩⟩,
      Cmd.setViewport ⟨0, 0, 1920, 1080, 0, 1065353216⟩,
      Cmd.setStencilReference 0,
      Cmd.setDepthBias 0 0 0,
      Cmd.pushConstants ⟨0, 1056964608, (0, 0), 0, 0, 0, 0, 0, -1, 0⟩,
      Cmd.bindVertexBuffers 1,
      Cmd.bindIndexBuffer 2,
      Cmd.bindDescriptorSet 0 7 [0, 0, 256, 0],
      Cmd.bindDescriptorSet 1 5 [],
      Cmd.endRenderPass,
      Cmd.beginRenderPass
        ⟨4, 0, 0, false, false, 0, false, false, false, 0, 15, 0, 1, -1, 0, true⟩,
      Cmd.setScissor ⟨⟨0, 0⟩, ⟨1920, 1080⟩⟩,
      Cmd.setViewport ⟨0, 0, 1920, 1080, 0, 1065353216⟩,
      Cmd.setStencilReference 0,
      Cmd.setDepthBias 0 0 0,
      Cmd.pushConstants ⟨0, 1056964608, (0, 0), 0, 0, 0, 0, 0, -1, 1⟩,
      Cmd.bindVertexBuffers 1,
      Cmd.bindIndexBuffer 2,
      Cmd.bindDescriptorSet 0 7 [0, 0, 256, 0]] := by
  decide

/-- C13.  `Clear(CT_Color | CT_Depth)` on the sample state records one `clearAttachments`
command, and that command passes only the depth attachment: the colour attachment that
was requested is not among the attachments cleared. -/
theorem C13_color_and_depth_drops_color :
    (Clear sampleEnv (sampleEnv.CT_Color ||| sampleEnv.CT_Depth) sampleState).map
      (fun t => t.drawCommands.filter
        (fun c => match c with
          | Cmd.clearAttachments _ _ => true
          | _ => false)) =
    some [Cmd.clearAttachments
      [{ aspectColor := false, aspectDepth := true, aspectStencil := false,
         clearValue := VkClearValue.depthStencil 1065353216 0 }]
      [{ rect := ⟨⟨0, 0⟩, ⟨0, 0⟩⟩, baseArrayLayer := 0, layerCount := 1 }]] := by
  decide

/-- C14.  With viewport height 50 and scissor (10, 20, 100, 50) on a 1080 high target,
`Clear(CT_Depth)` passes to `clearAttachments` the rectangle with offset (0, 0) and extent
(0, 0), while `ApplyScissor` computes offset (10, 1010) and extent (100, 50) for the same
state. -/
theorem C14_depth_clear_rect_is_empty :
    (Clear sampleEnv sampleEnv.CT_Depth
        (SetScissor 10 20 100 50 (SetViewport 0 0 640 50 sampleState))).map
      (fun t => t.drawCommands.getLast?) =
    some (some (Cmd.clearAttachments
      [{ aspectColor := false, aspectDepth := true, aspectStencil := false,
         clearValue := VkClearValue.depthStencil 1065353216 0 }]
      [{ rect := ⟨⟨0, 0⟩, ⟨0, 0⟩⟩, baseArrayLayer := 0, layerCount := 1 }])) ∧
    scissorRect sampleEnv (SetScissor 10 20 100 50 (SetViewport 0 0 640 50 sampleState)) =
      ⟨⟨10, 1010⟩, ⟨100, 50⟩⟩ := by
  decide

/-- C15.  For every state with a vertex buffer set and every draw type, `Apply` returns and
the commands it appends are the concatenation, in this order, of: the render-pass part
(nothing, a begin, or an end followed by a begin), at most one `setScissor`, at most one
`setViewport`, at most one `setStencilReference`, at most one `setDepthBias`, exactly one
`pushConstants`, at most one `bindVertexBuffers`, at most one `bindIndexBuffer`, at most
one bind of descriptor set 0 and at most one bind of descriptor set 1.  Both descriptor
set binds therefore come after the render-pass part. -/
theorem C15_apply_command_order (env : Env) (dt : Int) (s : State)
    (hvb : s.mVertexBuffer ≠ 0) :
    ∃ t rp sc vp sr db vb ib d0 d1, Apply env dt s = some t ∧
      t.drawCommands = s.drawCommands ++
        (rp ++ sc ++ vp ++ sr ++ db ++ [Cmd.pushConstants t.mPushConstants] ++
          vb ++ ib ++ d0 ++ d1) ∧
      (rp = [] ∨ rp = [Cmd.beginRenderPass (passKey env dt s)] ∨
        rp = [Cmd.endRenderPass, Cmd.beginRenderPass (passKey env dt s)]) ∧
      (sc = [] ∨ sc = [Cmd.setScissor (scissorRect env s)]) ∧
      (vp = [] ∨ vp = [Cmd.setViewport (viewportRect env s)]) ∧
      (sr = [] ∨ sr = [Cmd.setStencilReference s.mStencilRef]) ∧
      (db = [] ∨ db = [Cmd.setDepthBias s.mBias.mUnits 0 s.mBias.mFactor]) ∧
      (vb = [] ∨ vb = [Cmd.bindVertexBuffers s.mVertexBuffer]) ∧
      (ib = [] ∨ ib = [Cmd.bindIndexBuffer s.mIndexBuffer]) ∧
      (d0 = [] ∨ d0 = [Cmd.bindDescriptorSet 0 env.DynamicSet
        [t.mViewpointOffset, t.mLightBufferOffset, t.mMatricesOffset,
          t.mStreamDataOffset]]) ∧
      (d1 = [] ∨ ∃ d, d1 = [Cmd.bindDescriptorSet 1 d []]) := by
  obtain ⟨t, ht, _, _, _, _, _, _, _, hvo, hlo, hd⟩ := Apply_trace env dt s hvb
  refine ⟨t, renderPassCmds env dt s,
    (if s.mScissorChanged = true ∨ s.mCommandBuffer = false
      then [Cmd.setScissor (scissorRect env s)] else []),
    (if s.mViewportChanged = true ∨ s.mCommandBuffer = false
      then [Cmd.setViewport (viewportRect env s)] else []),
    (if s.mStencilRefChanged = true ∨ s.mCommandBuffer = false
      then [Cmd.setStencilReference s.mStencilRef] else []),
    (if s.mBias.mChanged = true ∨ s.mCommandBuffer = false
      then [Cmd.setDepthBias s.mBias.mUnits 0 s.mBias.mFactor] else []),
    (if s.mVertexBuffer ≠ s.mLastVertexBuffer ∧ s.mVertexBuffer ≠ 0
      then [Cmd.bindVertexBuffers s.mVertexBuffer] else []),
    (if s.mIndexBuffer ≠ s.mLastIndexBuffer ∧ s.mIndexBuffer ≠ 0
      then [Cmd.bindIndexBuffer s.mIndexBuffer] else []),
    (if s.mViewpointOffset ≠ s.mLastViewpointOffset ∨
        s.mLightBufferOffset ≠ s.mLastLightBufferOffset ∨
        t.mMatricesOffset ≠ s.mLastMatricesOffset ∨
        t.mStreamDataOffset ≠ s.mLastStreamDataOffset
      then [Cmd.bindDescriptorSet 0 env.DynamicSet
        [s.mViewpointOffset, s.mLightBufferOffset, t.mMatricesOffset, t.mStreamDataOffset]]
      else []),
    materialCmds env s, ht, ?_, ?_, ?_, ?_, ?_, ?_, ?_, ?_, ?_, ?_⟩
  · rw [hd]
    simp only [vertexBufferCmds, List.append_assoc, List.cons_append, List.nil_append,
      List.singleton_append]
  · unfold renderPassCmds; split_ifs <;> simp
  · split_ifs <;> simp
  · split_ifs <;> simp
  · split_ifs <;> simp
  · split_ifs <;> simp
  · split_ifs <;> simp
  · split_ifs <;> simp
  · rw [hvo, hlo]; split_ifs <;> simp
  · unfold materialCmds; split_ifs <;> simp

/-- C15, concrete instance: `Apply` with draw type 4 on the sample state. -/
theorem C15_apply_command_order_witness :
    ∃ t rp sc vp sr db vb ib d0 d1, Apply sampleEnv 4 sampleState = some t ∧
      t.drawCommands = sampleState.drawCommands ++
        (rp ++ sc ++ vp ++ sr ++ db ++ [Cmd.pushConstants t.mPushConstants] ++
          vb ++ ib ++ d0 ++ d1) := by
  obtain ⟨t, rp, sc, vp, sr, db, vb, ib, d0, d1, ht, hd, _⟩ :=
    C15_apply_command_order sampleEnv 4 sampleState (by decide)
  exact ⟨t, rp, sc, vp, sr, db, vb, ib, d0, d1, ht, hd⟩

/-- C16 (amended).  `EndRenderPass` on a state with an active command buffer closes it
and resets the vertex-buffer and index-buffer shadows to null and the viewpoint and
light-buffer offset shadows to 0xffffffff; it leaves the matrices and stream-data offset
shadows as they were.  The next `Apply` (vertex buffer set) returns, binds the vertex
buffer, binds the index buffer when it is non-null, and binds descriptor set 0 exactly
when the viewpoint offset or the light-buffer offset differs from 0xffffffff, or the
matrices offset or the stream-data offset differs from its shadow. -/
theorem C16_rebind_after_end_render_pass (env : Env) (dt : Int) (s : State)
    (hvb : s.mVertexBuffer ≠ 0) (hcb : s.mCommandBuffer = true) :
    ((EndRenderPass s).mCommandBuffer = false ∧
      (EndRenderPass s).mLastVertexBuffer = 0 ∧ (EndRenderPass s).mLastIndexBuffer = 0 ∧
      (EndRenderPass s).mLastViewpointOffset = 4294967295 ∧
      (EndRenderPass s).mLastLightBufferOffset = 4294967295 ∧
      (EndRenderPass s).mLastMatricesOffset = s.mLastMatricesOffset ∧
      (EndRenderPass s).mLastStreamDataOffset = s.mLastStreamDataOffset) ∧
    ∃ t cmds, Apply env dt (EndRenderPass s) = some t ∧
      t.drawCommands = (EndRenderPass s).drawCommands ++ cmds ∧
      Cmd.bindVertexBuffers s.mVertexBuffer ∈ cmds ∧
      (s.mIndexBuffer ≠ 0 → Cmd.bindIndexBuffer s.mIndexBuffer ∈ cmds) ∧
      (Cmd.bindDescriptorSet 0 env.DynamicSet
          [s.mViewpointOffset, s.mLightBufferOffset, t.mMatricesOffset,
            t.mStreamDataOffset] ∈ cmds ↔
        (s.mViewpointOffset ≠ 4294967295 ∨ s.mLightBufferOffset ≠ 4294967295 ∨
          t.mMatricesOffset ≠ s.mLastMatricesOffset ∨
          t.mStreamDataOffset ≠ s.mLastStreamDataOffset)) := by
  have hE : EndRenderPass s = { s with
      drawCommands := s.drawCommands ++ [Cmd.endRenderPass]
      mCommandBuffer := false
      mRenderPassKey := VkRenderPassKey.empty
      mLastViewpointOffset := 4294967295
      mLastLightBufferOffset := 4294967295
      mLastVertexBuffer := 0
      mLastIndexBuffer := 0
      mLastGlowEnabled := true
      mLastGradientEnabled := true
      mLastSplitEnabled := true
      mLastModelMatrixEnabled := true
      mLastTextureMatrixEnabled := true } := by
    unfold EndRenderPass; rw [if_pos hcb]
  refine ⟨by rw [hE]; exact ⟨rfl, rfl, rfl, rfl, rfl, rfl, rfl⟩, ?_⟩
  obtain ⟨t, ht, _, _, _, _, _, _, _, _, _, hd⟩ :=
    Apply_trace env dt (EndRenderPass s) (by rw [hE]; exact hvb)
  refine ⟨t, _, ht, hd, ?_, ?_, ?_⟩
  · rw [hE]
    simp [vertexBufferCmds, hvb]
  · intro hi
    rw [hE]
    simp [vertexBufferCmds, hi]
  · rw [hE]
    constructor
    · intro hmem
      simp only [List.mem_append, List.mem_cons] at hmem
      rcases hmem with h | h | h | h | h | h | h | h | h
      · rcases renderPassCmds_mem _ _ _ _ h with h | h <;> cases h
      · split_ifs at h <;> simp at h
      · split_ifs at h <;> simp at h
      · split_ifs at h <;> simp at h
      · split_ifs at h <;> simp at h
      · cases h
      · rcases vertexBufferCmds_mem _ _ h with h | h <;> cases h
      · split_ifs at h with hc
        · simpa using hc
        · simp at h
      · cases materialCmds_mem _ _ _ h
    · intro hc
      simp only [List.mem_append, List.mem_cons]
      right; right; right; right; right; right; right; left
      rw [if_pos (by simpa using hc)]
      simp

/-- C16 (amended), concrete instance: after `EndRenderPass` on the sample state the next
`Apply` binds vertex buffer 1 and index buffer 2. -/
theorem C16_rebind_after_end_render_pass_witness :
    (EndRenderPass sampleState).mLastVertexBuffer = 0 ∧
    ∃ t cmds, Apply sampleEnv 4 (EndRenderPass sampleState) = some t ∧
      t.drawCommands = (EndRenderPass sampleState).drawCommands ++ cmds ∧
      Cmd.bindVertexBuffers sampleState.mVertexBuffer ∈ cmds ∧
      Cmd.bindIndexBuffer sampleState.mIndexBuffer ∈ cmds := by
  obtain ⟨⟨_, hv, _⟩, t, cmds, ht, hd, hvb, hib, _⟩ :=
    C16_rebind_after_end_render_pass sampleEnv 4 sampleState (by decide) (by decide)
  exact ⟨hv, t, cmds, ht, hd, hvb, hib (by decide)⟩

/-- C16, counterexample to the original wording: viewpoint and light-buffer offsets equal
to 0xffffffff, matrices offset 256 equal to its shadow and matrices already cached.  The
`Apply` after `EndRenderPass` begins a new render pass and binds both buffers but records
no bind of descriptor set 0. -/
theorem C16_rebind_counterexample :
    (Apply sampleEnv 4 (EndRenderPass { sampleState with
        mViewpointOffset := 4294967295, mLightBufferOffset := 4294967295,
        mMatricesOffset := 256, mLastMatricesOffset := 256,
        mMatrices := ⟨identityMatrix, identityMatrix, identityMatrix⟩ })).map
      (fun t => t.drawCommands) =
    some [Cmd.endRenderPass,
      Cmd.beginRenderPass
        ⟨4, 0, 0, false, false, 0, false, false, false, 0, 15, 0, 1, -1, 0, true⟩,
      Cmd.setScissor ⟨⟨0, 0⟩, ⟨1920, 1080⟩⟩,
      Cmd.setViewport ⟨0, 0, 1920, 1080, 0, 1065353216⟩,
      Cmd.setStencilReference 0,
      Cmd.setDepthBias 0 0 0,
      Cmd.pushConstants ⟨0, 1056964608, (0, 0), 0, 0, 0, 0, 0, -1, 0⟩,
      Cmd.bindVertexBuffers 1,
      Cmd.bindIndexBuffer 2] := by
  decide

/-- C17.  `ApplyRenderPass` (vertex buffer set) returns and stores a key, carried by every
`beginRenderPass` it records, such that: if the special effect is above `EFF_NONE` the key
has that effect, `EffectState = 0` and `AlphaTest = false`; otherwise the key has
`SpecialEffect = EFF_NONE`, `EffectState` equal to the override shader if it is
non-negative, else the material's shader index, else 0, or `SHADER_NoTexture` when
texturing is disabled, and `AlphaTest` equal to (alpha threshold >= 0). -/
theorem C17_pass_key_branches (env : Env) (dt : Int) (s : State)
    (hvb : s.mVertexBuffer ≠ 0) :
    ∃ t, ApplyRenderPass env dt s = some t ∧
      (∀ k, Cmd.beginRenderPass k ∈ t.drawCommands.drop s.drawCommands.length →
        k = t.mRenderPassKey) ∧
      (s.mSpecialEffect > env.EFF_NONE →
        t.mRenderPassKey.SpecialEffect = s.mSpecialEffect ∧
        t.mRenderPassKey.EffectState = 0 ∧ t.mRenderPassKey.AlphaTest = false) ∧
      (¬ s.mSpecialEffect > env.EFF_NONE →
        t.mRenderPassKey.SpecialEffect = env.EFF_NONE ∧
        t.mRenderPassKey.EffectState =
          (if s.mTextureEnabled = true then
            (if s.mMaterial.mOverrideShader ≥ 0 then s.mMaterial.mOverrideShader
             else if s.mMaterial.mMaterial ≠ 0 then env.GetShaderIndex s.mMaterial.mMaterial
             else 0)
           else env.SHADER_NoTexture) ∧
        t.mRenderPassKey.AlphaTest = f32GeZero s.mAlphaThreshold) := by
  refine ⟨_, ApplyRenderPass_eq env dt s hvb, ?_, ?_, ?_⟩
  · intro k hk
    simp only [List.drop_left] at hk
    rcases renderPassCmds_mem _ _ _ _ hk with h | h
    · cases h
    · injection h
  · intro h
    simp only [passKey, if_pos h]
    exact ⟨trivial, trivial, trivial⟩
  · intro h
    simp only [passKey, if_neg h]
    exact ⟨trivial, trivial, trivial⟩

/-- C17, concrete instance: the sample state has no special effect, so its key carries
`EFF_NONE` and the alpha test of its threshold. -/
theorem C17_pass_key_branches_witness :
    ∃ t, ApplyRenderPass sampleEnv 4 sampleState = some t ∧
      t.mRenderPassKey.SpecialEffect = sampleEnv.EFF_NONE ∧
      t.mRenderPassKey.AlphaTest = f32GeZero sampleState.mAlphaThreshold := by
  obtain ⟨t, ht, _, _, hn⟩ := C17_pass_key_branches sampleEnv 4 sampleState (by decide)
  exact ⟨t, ht, (hn (by decide)).1, (hn (by decide)).2.2⟩

/-- C18.  With an active command buffer, if at least one of the viewpoint, light-buffer,
matrices and stream-data offsets differs from its shadow, `ApplyDynamicSet` records one
`bindDescriptorSet` for set 0 with these four offsets in this order, sets all four
shadows to the current offsets and changes nothing else; if none differs it returns the
state unchanged. -/
theorem C18_dynamic_set (env : Env) (s : State)
    (hcb : s.mCommandBuffer = true) :
    ((s.mViewpointOffset ≠ s.mLastViewpointOffset ∨
        s.mLightBufferOffset ≠ s.mLastLightBufferOffset ∨
        s.mMatricesOffset ≠ s.mLastMatricesOffset ∨
        s.mStreamDataOffset ≠ s.mLastStreamDataOffset) →
      ApplyDynamicSet env s = some { s with
        drawCommands := s.drawCommands ++ [Cmd.bindDescriptorSet 0 env.DynamicSet
          [s.mViewpointOffset, s.mLightBufferOffset, s.mMatricesOffset,
            s.mStreamDataOffset]]
        mLastViewpointOffset := s.mViewpointOffset
        mLastLightBufferOffset := s.mLightBufferOffset
        mLastMatricesOffset := s.mMatricesOffset
        mLastStreamDataOffset := s.mStreamDataOffset }) ∧
    (¬ (s.mViewpointOffset ≠ s.mLastViewpointOffset ∨
        s.mLightBufferOffset ≠ s.mLastLightBufferOffset ∨
        s.mMatricesOffset ≠ s.mLastMatricesOffset ∨
        s.mStreamDataOffset ≠ s.mLastStreamDataOffset) →
      ApplyDynamicSet env s = some s) := by
  constructor
  · intro h
    unfold ApplyDynamicSet emit
    rw [if_pos h, if_pos hcb]
    rfl
  · intro h
    unfold ApplyDynamicSet
    rw [if_neg h]

/-- C18, concrete instance: on the sample state the viewpoint shadow is 0xffffffff, so
the set is bound. -/
theorem C18_dynamic_set_witness :
    ApplyDynamicSet sampleEnv sampleState = some { sampleState with
      drawCommands := sampleState.drawCommands ++ [Cmd.bindDescriptorSet 0 sampleEnv.DynamicSet
        [sampleState.mViewpointOffset, sampleState.mLightBufferOffset,
          sampleState.mMatricesOffset, sampleState.mStreamDataOffset]]
      mLastViewpointOffset := sampleState.mViewpointOffset
      mLastLightBufferOffset := sampleState.mLightBufferOffset
      mLastMatricesOffset := sampleState.mMatricesOffset
      mLastStreamDataOffset := sampleState.mStreamDataOffset } :=
  (C18_dynamic_set sampleEnv sampleState (by decide)).1 (by decide)

/-- C19.  For a matrices buffer of at most 2^32 bytes, `ApplyMatrices` either leaves the
matrices offset and the buffer contents unchanged, or advances the offset by exactly one
aligned block, writes exactly one block at the new offset, and the new offset plus one
aligned block is below the buffer size.  When the old offset plus two aligned blocks is
not below the buffer size, the offset and the buffer contents are unchanged. -/
theorem C19_matrices_ring (env : Env) (s : State)
    (hsize : env.MatricesUBO_Size ≤ 4294967296) :
    (((ApplyMatrices env s).mMatricesOffset = s.mMatricesOffset ∧
        (ApplyMatrices env s).MatricesUBO_Memory = s.MatricesUBO_Memory) ∨
      ((ApplyMatrices env s).mMatricesOffset =
          s.mMatricesOffset + env.MatricesUBO_AlignedSize ∧
        (ApplyMatrices env s).MatricesUBO_Memory = s.MatricesUBO_Memory ++
          [((ApplyMatrices env s).mMatricesOffset, (ApplyMatrices env s).mMatrices)] ∧
        (ApplyMatrices env s).mMatricesOffset + env.MatricesUBO_AlignedSize <
          env.MatricesUBO_Size)) ∧
    (¬ s.mMatricesOffset + env.MatricesUBO_AlignedSize * 2 < env.MatricesUBO_Size →
      (ApplyMatrices env s).mMatricesOffset = s.mMatricesOffset ∧
      (ApplyMatrices env s).MatricesUBO_Memory = s.MatricesUBO_Memory) := by
  by_cases hg : s.mMatricesOffset + env.MatricesUBO_AlignedSize * 2 < env.MatricesUBO_Size
  · have hw : wrapU32 (s.mMatricesOffset + env.MatricesUBO_AlignedSize) =
        s.mMatricesOffset + env.MatricesUBO_AlignedSize := by
      unfold wrapU32; exact Nat.mod_eq_of_lt (by omega)
    refine ⟨?_, fun h => absurd hg h⟩
    simp only [ApplyMatrices, BufferedSet_snd, BufferedSet_fst]
    split_ifs
    all_goals first
      | (left; exact ⟨rfl, rfl⟩)
      | (right; simp only [hw]; exact ⟨trivial, trivial, by omega⟩)
  · have hkeep : (ApplyMatrices env s).mMatricesOffset = s.mMatricesOffset ∧
        (ApplyMatrices env s).MatricesUBO_Memory = s.MatricesUBO_Memory := by
      simp only [ApplyMatrices, BufferedSet_snd, BufferedSet_fst]
      split_ifs <;> exact ⟨rfl, rfl⟩
    exact ⟨Or.inl hkeep, fun _ => hkeep⟩

/-- C19, concrete instance on the sample state and a buffer of 12800000 bytes. -/
theorem C19_matrices_ring_witness :
    ((ApplyMatrices sampleEnv sampleState).mMatricesOffset = sampleState.mMatricesOffset ∧
        (ApplyMatrices sampleEnv sampleState).MatricesUBO_Memory =
          sampleState.MatricesUBO_Memory) ∨
      ((ApplyMatrices sampleEnv sampleState).mMatricesOffset =
          sampleState.mMatricesOffset + sampleEnv.MatricesUBO_AlignedSize ∧
        (ApplyMatrices sampleEnv sampleState).MatricesUBO_Memory =
          sampleState.MatricesUBO_Memory ++
            [((ApplyMatrices sampleEnv sampleState).mMatricesOffset,
              (ApplyMatrices sampleEnv sampleState).mMatrices)] ∧
        (ApplyMatrices sampleEnv sampleState).mMatricesOffset +
            sampleEnv.MatricesUBO_AlignedSize < sampleEnv.MatricesUBO_Size) :=
  (C19_matrices_ring sampleEnv sampleState (by decide)).1

/-- C20.  For every `Apply` (vertex buffer set) that starts with the ring index in
[-1, `MAX_STREAM_DATA` - 1]: it records exactly one `pushConstants`, whose `uDataIndex` is
the new ring index; its one stream write goes to the new backing offset plus the block
size times that ring index; the stream-data shadow equals that backing offset afterwards,
and a bind of descriptor set 0 recorded after the push constants carries it as fourth
offset.  The new ring index is non-negative, and below `MAX_STREAM_DATA` when that is
positive. -/
theorem C20_block_written_is_block_read (env : Env) (dt : Int) (s : State)
    (hvb : s.mVertexBuffer ≠ 0) (hlo : -1 ≤ s.mDataIndex)
    (hhi : s.mDataIndex ≤ env.MAX_STREAM_DATA - 1) :
    ∃ t pre post, Apply env dt s = some t ∧
      t.drawCommands =
        s.drawCommands ++ pre ++ [Cmd.pushConstants t.mPushConstants] ++ post ∧
      (∀ pc, Cmd.pushConstants pc ∉ pre ++ post) ∧
      t.StreamUBO_Memory = s.StreamUBO_Memory ++
        [((t.mStreamDataOffset : Int) + (env.sizeofStreamData : Int) * t.mDataIndex,
          t.mStreamData)] ∧
      t.mPushConstants.uDataIndex = t.mDataIndex ∧
      t.mLastStreamDataOffset = t.mStreamDataOffset ∧
      (∀ d offs, Cmd.bindDescriptorSet 0 d offs ∈ post →
        offs = [t.mViewpointOffset, t.mLightBufferOffset, t.mMatricesOffset,
          t.mStreamDataOffset]) ∧
      0 ≤ t.mDataIndex ∧ (0 < env.MAX_STREAM_DATA → t.mDataIndex < env.MAX_STREAM_DATA) := by
  obtain ⟨t, ht, _, _, hi, _, hp, hl, hm, hvo, hlo2, hd⟩ := Apply_trace env dt s hvb
  refine ⟨t,
    renderPassCmds env dt s ++
    ((if s.mScissorChanged = true ∨ s.mCommandBuffer = false
      then [Cmd.setScissor (scissorRect env s)] else []) ++
    ((if s.mViewportChanged = true ∨ s.mCommandBuffer = false
      then [Cmd.setViewport (viewportRect env s)] else []) ++
    ((if s.mStencilRefChanged = true ∨ s.mCommandBuffer = false
      then [Cmd.setStencilReference s.mStencilRef] else []) ++
    (if s.mBias.mChanged = true ∨ s.mCommandBuffer = false
      then [Cmd.setDepthBias s.mBias.mUnits 0 s.mBias.mFactor] else [])))),
    vertexBufferCmds s ++
    ((if s.mViewpointOffset ≠ s.mLastViewpointOffset ∨
        s.mLightBufferOffset ≠ s.mLastLightBufferOffset ∨
        t.mMatricesOffset ≠ s.mLastMatricesOffset ∨
        t.mStreamDataOffset ≠ s.mLastStreamDataOffset
      then [Cmd.bindDescriptorSet 0 env.DynamicSet
        [s.mViewpointOffset, s.mLightBufferOffset, t.mMatricesOffset, t.mStreamDataOffset]]
      else []) ++ materialCmds env s),
    ht, ?_, ?_, hm, hp, hl, ?_, ?_, ?_⟩
  · rw [hd]
    simp only [List.append_assoc, List.cons_append, List.nil_append, List.singleton_append]
  · intro pc hmem
    simp only [List.mem_append] at hmem
    rcases hmem with (h | h | h | h | h) | h | h | h
    · rcases renderPassCmds_mem _ _ _ _ h with h | h <;> cases h
    · split_ifs at h <;> simp at h
    · split_ifs at h <;> simp at h
    · split_ifs at h <;> simp at h
    · split_ifs at h <;> simp at h
    · rcases vertexBufferCmds_mem _ _ h with h | h <;> cases h
    · split_ifs at h <;> simp at h
    · cases materialCmds_mem _ _ _ h
  · intro d offs hmem
    simp only [List.mem_append] at hmem
    rcases hmem with h | h | h
    · rcases vertexBufferCmds_mem _ _ h with h | h <;> cases h
    · split_ifs at h
      · simp only [List.mem_singleton, Cmd.bindDescriptorSet.injEq] at h
        rw [h.2.2, hvo, hlo2]
      · simp at h
    · cases materialCmds_mem _ _ _ h
  · rw [hi]; unfold nextDataIndex; split_ifs <;> omega
  · intro hpos
    rw [hi]; unfold nextDataIndex; split_ifs <;> omega

/-- C20, concrete instance: `Apply` with draw type 4 on the sample state. -/
theorem C20_block_written_is_block_read_witness :
    ∃ t, Apply sampleEnv 4 sampleState = some t ∧
      t.StreamUBO_Memory = sampleState.StreamUBO_Memory ++
        [((t.mStreamDataOffset : Int) + (sampleEnv.sizeofStreamData : Int) * t.mDataIndex,
          t.mStreamData)] ∧
      t.mPushConstants.uDataIndex = t.mDataIndex ∧
      t.mLastStreamDataOffset = t.mStreamDataOffset ∧
      0 ≤ t.mDataIndex ∧ t.mDataIndex < sampleEnv.MAX_STREAM_DATA := by
  obtain ⟨t, _, _, ht, _, _, hm, hp, hl, _, h0, hN⟩ :=
    C20_block_written_is_block_read sampleEnv 4 sampleState (by decide) (by decide)
      (by decide)
  exact ⟨t, ht, hm, hp, hl, h0, hN (by decide)⟩

end WIGZDoom
